import Mathlib

/-!
Shallow embedding of the TripMind backend core (the validation, deduplication,
itinerary-policy and trip CRUD logic of backend/app/agents/tools.py and
backend/app/main.py) together with theorems settling the frozen claims.

Modelling conventions:
  * Python machine values are modelled by Nat / Int / Rat (floats carry no
    claim-relevant semantics; budget comparisons are exact).
  * The database session is modelled by an explicit TripStore value threaded
    through each operation; db.add appends in insertion order and the primary
    key is an auto-increment counter.
  * The external text-generation collaborator (OpenAI) is modelled as an
    oracle parameter: its call either fails, returns text that fails JSON
    parsing, or returns a parsed JSON document.  JSON text parsing itself
    (Python json.loads plus code-fence stripping) is outside the repository
    and is absorbed into the oracle outcome.
  * String case folding / trimming model the Python str.lower / str.strip
    behaviour on the ASCII strings the rest of the code manipulates.
  * User-facing message strings of result dictionaries are elided; result
    values keep every claim-relevant field (status tags, ids, counters).
-/

namespace TripMind

/- ═══════════════ Proleptic Gregorian date arithmetic ═══════════════
   Mirrors Python datetime.date ordinal arithmetic (0001-01-01 has ordinal 1). -/

def isLeap (y : Nat) : Bool :=
  (y % 4 == 0 && y % 100 != 0) || (y % 400 == 0)

def daysInMonth (y m : Nat) : Nat :=
  if m == 2 then (if isLeap y then 29 else 28)
  else if m == 4 || m == 6 || m == 9 || m == 11 then 30
  else 31

def daysBeforeMonth (y m : Nat) : Nat :=
  (List.range (m - 1)).foldl (fun acc i => acc + daysInMonth y (i + 1)) 0

/-- Python date(y,m,d).toordinal(): days since 0000-12-31 (0001-01-01 = 1). -/
def toOrdinal (y m d : Nat) : Nat :=
  let py := y - 1
  py * 365 + py / 4 - py / 100 + py / 400 + daysBeforeMonth y m + d

def monthFromDoy (y : Nat) : Nat → Nat → Nat × Nat
  | m, doy =>
    if h : m ≥ 12 then (12, doy + 1)
    else if doy < daysInMonth y m then (m, doy + 1)
    else monthFromDoy y (m + 1) (doy - daysInMonth y m)
  termination_by m _ => 12 - m

/-- Inverse of toOrdinal for ordinals ≥ 1 (CPython date.fromordinal algorithm). -/
def fromOrdinal (n : Nat) : Nat × Nat × Nat :=
  let n0 := n - 1
  let n400 := n0 / 146097
  let r1 := n0 % 146097
  let n100 := min (r1 / 36524) 3
  let r2 := r1 - n100 * 36524
  let n4 := r2 / 1461
  let r3 := r2 % 1461
  let n1 := min (r3 / 365) 3
  let r4 := r3 - n1 * 365
  let y := 400 * n400 + 100 * n100 + 4 * n4 + n1 + 1
  let (m, d) := monthFromDoy y 1 r4
  (y, m, d)

def pad2 (n : Nat) : String := if n < 10 then "0" ++ toString n else toString n

def pad4 (n : Nat) : String :=
  if n < 10 then "000" ++ toString n
  else if n < 100 then "00" ++ toString n
  else if n < 1000 then "0" ++ toString n
  else toString n

/-- strftime("%Y-%m-%d") on a (year, month, day) triple. -/
def formatYMD (y m d : Nat) : String := pad4 y ++ "-" ++ pad2 m ++ "-" ++ pad2 d

/- ═══════════════ Python date-string parsing ═══════════════ -/

def digitVal (c : Char) : Nat := c.toNat - 48

/-- Month field of strptime "%m": regex 1[0-2]|0[1-9]|[1-9], greedy first. -/
def parseMonthField : List Char → Option (Nat × List Char)
  | c1 :: c2 :: rest =>
    if c1 == '1' && (c2 == '0' || c2 == '1' || c2 == '2') then
      some (10 + digitVal c2, rest)
    else if c1 == '0' && c2.isDigit && c2 != '0' then
      some (digitVal c2, rest)
    else if c1.isDigit && c1 != '0' then
      some (digitVal c1, c2 :: rest)
    else none
  | [c1] => if c1.isDigit && c1 != '0' then some (digitVal c1, []) else none
  | [] => none

/-- Day field of strptime "%d": regex 3[01]|[12]\d|0[1-9]|[1-9], greedy first. -/
def parseDayField : List Char → Option (Nat × List Char)
  | c1 :: c2 :: rest =>
    if c1 == '3' && (c2 == '0' || c2 == '1') then
      some (30 + digitVal c2, rest)
    else if (c1 == '1' || c1 == '2') && c2.isDigit then
      some (10 * digitVal c1 + digitVal c2, rest)
    else if c1 == '0' && c2.isDigit && c2 != '0' then
      some (digitVal c2, rest)
    else if c1.isDigit && c1 != '0' then
      some (digitVal c1, c2 :: rest)
    else none
  | [c1] => if c1.isDigit && c1 != '0' then some (digitVal c1, []) else none
  | [] => none

/-- datetime.strptime(s, "%Y-%m-%d"): 4-digit year, then month/day fields,
    whole string consumed, then the date(…) constructor validates ranges. -/
def strptimeYMD (s : String) : Option (Nat × Nat × Nat) :=
  match s.data with
  | y1 :: y2 :: y3 :: y4 :: '-' :: rest =>
    if y1.isDigit && y2.isDigit && y3.isDigit && y4.isDigit then
      let y := 1000 * digitVal y1 + 100 * digitVal y2 + 10 * digitVal y3 + digitVal y4
      match parseMonthField rest with
      | some (m, '-' :: rest2) =>
        match parseDayField rest2 with
        | some (d, []) =>
          if 1 ≤ y && d ≤ daysInMonth y m then some (y, m, d) else none
        | _ => none
      | _ => none
    else none
  | _ => none

/-- A parsed Python datetime after .replace(tzinfo=None): wall-clock only. -/
structure PyDateTime where
  year : Nat
  month : Nat
  day : Nat
  secs : Nat := 0
deriving DecidableEq, Repr

def PyDateTime.totalSecs (t : PyDateTime) : Nat :=
  toOrdinal t.year t.month t.day * 86400 + t.secs

/-- (e - s).days of the timedelta between two datetimes: floor division. -/
def diffDays (e s : PyDateTime) : Int :=
  Int.fdiv ((e.totalSecs : Int) - (s.totalSecs : Int)) 86400

def parse2Digits : List Char → Option (Nat × List Char)
  | c1 :: c2 :: rest =>
    if c1.isDigit && c2.isDigit then some (10 * digitVal c1 + digitVal c2, rest) else none
  | _ => none

def dropDigits : List Char → List Char
  | [] => []
  | c :: rest => if c.isDigit then dropDigits rest else c :: rest

/-- Optional seconds / fractional part of an ISO time: [:SS[.ffffff]]. -/
def parseIsoSeconds : List Char → Option (Nat × List Char)
  | ':' :: rest =>
    match parse2Digits rest with
    | some (s, '.' :: c :: rest2) =>
      if c.isDigit then some (s, dropDigits rest2) else none
    | some (s, rest2) => some (s, rest2)
    | none => none
  | rest => some (0, rest)

/-- Optional UTC-offset suffix [±HH:MM]; parsed then discarded because the
    callers immediately strip tzinfo.  Returns false on a malformed suffix. -/
def parseIsoOffset : List Char → Bool
  | [] => true
  | c :: rest =>
    if c == '+' || c == '-' then
      match parse2Digits rest with
      | some (oh, ':' :: rest2) =>
        match parse2Digits rest2 with
        | some (om, []) => oh < 24 && om < 60
        | _ => false
      | _ => false
    else false

/-- Time-of-day part HH:MM[:SS[.ffffff]][±HH:MM] of an ISO datetime string. -/
def parseIsoTime (cs : List Char) : Option Nat :=
  match parse2Digits cs with
  | some (h, ':' :: rest) =>
    match parse2Digits rest with
    | some (mi, rest2) =>
      match parseIsoSeconds rest2 with
      | some (s, rest3) =>
        if h < 24 && mi < 60 && s < 60 && parseIsoOffset rest3 then
          some (h * 3600 + mi * 60 + s)
        else none
      | none => none
    | none => none
  | _ => none

/-- datetime.fromisoformat: "YYYY-MM-DD" with strictly two-digit month/day,
    optionally followed by a separator character and a time of day. -/
def fromisoformat (s : String) : Option PyDateTime :=
  match s.data with
  | y1 :: y2 :: y3 :: y4 :: '-' :: m1 :: m2 :: '-' :: d1 :: d2 :: rest =>
    if y1.isDigit && y2.isDigit && y3.isDigit && y4.isDigit &&
       m1.isDigit && m2.isDigit && d1.isDigit && d2.isDigit then
      let y := 1000 * digitVal y1 + 100 * digitVal y2 + 10 * digitVal y3 + digitVal y4
      let m := 10 * digitVal m1 + digitVal m2
      let d := 10 * digitVal d1 + digitVal d2
      if 1 ≤ y && 1 ≤ m && m ≤ 12 && 1 ≤ d && d ≤ daysInMonth y m then
        match rest with
        | [] => some { year := y, month := m, day := d, secs := 0 }
        | _ :: timePart =>
          match parseIsoTime timePart with
          | some secs => some { year := y, month := m, day := d, secs := secs }
          | none => none
      else none
    else none
  | _ => none

def replaceZChars : List Char → List Char
  | [] => []
  | c :: rest =>
    if c == 'Z' then '+' :: '0' :: '0' :: ':' :: '0' :: '0' :: replaceZChars rest
    else c :: replaceZChars rest

/-- start_date.replace("Z", "+00:00") before fromisoformat. -/
def replaceZ (s : String) : String := ⟨replaceZChars s.data⟩

/- Python string primitives, spelled out over the character list so that they
   evaluate inside the kernel.  ASCII scope: the strings the code compares
   against (deny-list entries, status tags) are ASCII. -/

/-- The characters str.strip() removes. -/
def isPySpace (c : Char) : Bool :=
  c == ' ' || c == '\t' || c == '\n' || c == '\r' || c.toNat == 11 || c.toNat == 12

/-- Python str.strip(). -/
def pyStrip (s : String) : String :=
  ⟨((s.data.dropWhile isPySpace).reverse.dropWhile isPySpace).reverse⟩

/-- Python str.lower() on ASCII letters. -/
def asciiLower (c : Char) : Char :=
  if 65 ≤ c.toNat && c.toNat ≤ 90 then Char.ofNat (c.toNat + 32) else c

/-- Python str.lower(). -/
def pyLowerStr (s : String) : String := ⟨s.data.map asciiLower⟩

/-- Python s[:n]. -/
def pyTake (s : String) (n : Nat) : String := ⟨s.data.take n⟩

/-- Python string comparison: lexicographic on code points. -/
def pyStrLtb : List Char → List Char → Bool
  | _, [] => false
  | [], _ :: _ => true
  | a :: as, b :: bs =>
    if a.toNat < b.toNat then true
    else if b.toNat < a.toNat then false
    else pyStrLtb as bs

/-- Python a < b on strings. -/
def pyStrLt (a b : String) : Bool := pyStrLtb a.data b.data

/-- Python a <= b on strings. -/
def pyStrLe (a b : String) : Bool := !(pyStrLt b a)

/- ═══════════════ JSON documents from the text-generation collaborator ═══════
   Numbers are modelled as integers: the only numeric JSON fields the code
   inspects ("day" numbers) are integral. -/

inductive Json where
  | null : Json
  | bool : Bool → Json
  | num : Int → Json
  | str : String → Json
  | arr : List Json → Json
  | obj : List (String × Json) → Json
deriving Repr

/-- Dictionary lookup on an object field list (first binding wins). -/
def jLookup : List (String × Json) → String → Option Json
  | [], _ => none
  | (k, v) :: rest, key => if k == key then some v else jLookup rest key

/-- d[k] = v on a dict: replace in place if the key exists, else append. -/
def jStore : List (String × Json) → String → Json → List (String × Json)
  | [], key, v => [(key, v)]
  | (k, w) :: rest, key, v =>
    if k == key then (k, v) :: rest else (k, w) :: jStore rest key v

/-- d.get(key, default) on a JSON value known to be an object. -/
def jGetD (j : Json) (key : String) (dflt : Json) : Json :=
  match j with
  | .obj kvs => (jLookup kvs key).getD dflt
  | _ => dflt

/-- d.get(key, default); none models the AttributeError raised on non-dicts. -/
def pyDictGet (j : Json) (key : String) (dflt : Json) : Option Json :=
  match j with
  | .obj kvs => some ((jLookup kvs key).getD dflt)
  | _ => none

/-- Python len(x): defined for lists, strings and dicts, TypeError otherwise. -/
def pyLen (j : Json) : Option Nat :=
  match j with
  | .arr l => some l.length
  | .str s => some s.length
  | .obj kvs => some kvs.length
  | _ => none

/-- Python list(x): elements of a list, characters of a string, keys of a
    dict; none models the TypeError raised on non-iterables. -/
def pyList (j : Json) : Option (List Json) :=
  match j with
  | .arr l => some l
  | .str s => some (s.data.map fun c => Json.str (String.singleton c))
  | .obj kvs => some (kvs.map fun kv => Json.str kv.1)
  | _ => none

/-- Python `x == n` for a JSON value against an int (bools compare as 0/1,
    values of other types are simply unequal). -/
def jEqInt (j : Json) (n : Int) : Bool :=
  match j with
  | .num m => m == n
  | .bool b => (if b then (1 : Int) else 0) == n
  | _ => false

/- ═══════════════ Data model (backend/app/models.py) ═══════════════ -/

/-- The claim-relevant keys of the trip_metadata JSON bag.  A `none` field
    models an absent key.  country_code collapses "absent" and "null" (the
    code only ever reads it through .get, where both give None). -/
structure TripMetadata where
  preferences : Option (List String) := none
  source : Option String := none
  country_code : Option String := none
  notes : Option String := none
  checklist : Option Json := none
  expenses : Option Json := none
  itinerary : Option Json := none
  flights : Option Json := none
  hotels : Option Json := none
  itinerary_config : Option Json := none
deriving Repr

structure Trip where
  id : Nat
  user_id : Nat
  destination : String
  start_date : Option String := none
  end_date : Option String := none
  duration_days : Option Int := none
  budget : Option Rat := none
  travelers_count : Int := 1
  status : String := "planning"
  trip_metadata : TripMetadata := {}
  created_at : String := ""
  updated_at : Option String := none
deriving Repr

/-- The trips table: rows in insertion order plus the auto-increment counter. -/
structure TripStore where
  trips : List Trip := []
  nextId : Nat := 1
deriving Repr

/-- Store well-formedness: primary keys are unique and below the counter. -/
def TripStore.wf (s : TripStore) : Prop :=
  (s.trips.map Trip.id).Nodup ∧ ∀ t ∈ s.trips, t.id < s.nextId

/-- db.query(Trip).filter(Trip.id == trip_id).first() -/
def TripStore.byId (s : TripStore) (trip_id : Nat) : Option Trip :=
  s.trips.find? (fun t => t.id == trip_id)

/-- In-place mutation of a fetched row, modelled as replacement by id. -/
def TripStore.replaceById (s : TripStore) (t : Trip) : TripStore :=
  { s with trips := s.trips.map (fun x => if x.id == t.id then t else x) }

/- ═══════════════ Validation constants (tools.py lines 13-33) ═══════════════
   Transcribed verbatim, including the capitalised "Gotham" entry. -/

def INVALID_DESTINATIONS : List String := [
  -- Space
  "moon", "the moon", "mars", "jupiter", "saturn", "venus", "mercury",
  "neptune", "uranus", "pluto", "space", "outer space", "the sun",
  "milky way", "galaxy", "asteroid", "iss", "international space station",
  -- Fictional: books
  "hogwarts", "narnia", "middle earth", "the shire", "mordor", "gondor",
  "rivendell", "diagon alley", "hogsmeade", "neverland", "oz", "wonderland",
  -- Fictional: games/shows/movies
  "wakanda", "asgard", "pandora", "westeros", "king\x27s landing",
  "dragonstone", "winterfell", "hoth", "tatooine", "endor", "naboo",
  "coruscant", "kamino", "alderaan", "vulcan", "bajor", "Gotham",
  "metropolis", "gotham city", "south park", "springfield",
  -- Vague non-destinations
  "somewhere", "anywhere", "everywhere", "nowhere", "paradise",
  "a beach", "the beach", "somewhere warm", "somewhere cold",
  "a country", "a city", "a place", "abroad", "overseas"]

def MAX_BUDGET_USD : Rat := 500000

def MAX_DURATION_DAYS : Int := 365

/-- The space_words set local to _validate_trip_input. -/
def space_words : List String := [
  "moon", "the moon", "mars", "jupiter", "saturn", "venus",
  "mercury", "neptune", "uranus", "pluto", "space",
  "outer space", "the sun", "iss", "international space station"]

/-- The fictional_words set local to _validate_trip_input. -/
def fictional_words : List String := [
  "hogwarts", "narnia", "middle earth", "wakanda", "asgard",
  "pandora", "westeros", "neverland", "oz", "wonderland",
  "tatooine", "gotham", "metropolis"]

/- ═══════════════ Validator (tools.py _validate_trip_input) ═══════════════ -/

/-- Which validation rule fired; each constructor corresponds to one of the
    distinct validation_error messages the Python function can return. -/
inductive VError where
  | noDestination
  | tooShort
  | digitsOnly
  | denySpace
  | denyFictional
  | denyVague
  | budgetNegative
  | budgetZero
  | budgetTooHigh
  | startPassed
  | endNotAfterStart
  | spanTooLong
  | durationTooShort
  | durationTooLong
deriving DecidableEq, Repr

/-- dest_clean.replace(" ", "") -/
def removeSpaces (s : String) : String := ⟨s.data.filter (fun c => c != ' ')⟩

/-- Python str.isdigit on the ASCII strings in scope: nonempty, all digits. -/
def pyIsDigit (s : String) : Bool := s != "" && s.data.all Char.isDigit

def budgetChecks (budget : Option Rat) : Option VError :=
  match budget with
  | none => none
  | some b =>
    if b < 0 then some .budgetNegative
    else if b == 0 then some .budgetZero
    else if b > MAX_BUDGET_USD then some .budgetTooHigh
    else none

def dateChecks (start_date end_date : Option String) (today : PyDateTime) :
    Option VError :=
  match start_date with
  | none => none
  | some sd =>
    if sd == "" then none  -- `if start_date:` truthiness
    else
      match fromisoformat (replaceZ sd) with
      | none => none  -- unparseable start dates are skipped (fail open)
      | some ps =>
        if ps.year < today.year || (ps.year == today.year && ps.month < today.month) then
          some .startPassed
        else
          match end_date with
          | none => none
          | some ed =>
            if ed == "" then none  -- `if end_date:` truthiness
            else
              match fromisoformat (replaceZ ed) with
              | none => none  -- unparseable end dates are skipped
              | some pe =>
                if pe.totalSecs ≤ ps.totalSecs then some .endNotAfterStart
                else if diffDays pe ps > MAX_DURATION_DAYS then some .spanTooLong
                else none

def durationChecks (duration_days : Option Int) : Option VError :=
  match duration_days with
  | none => none
  | some d =>
    if d ≤ 0 then some .durationTooShort
    else if d > MAX_DURATION_DAYS then some .durationTooLong
    else none

def destinationChecks (destination : String) : Option VError :=
  if destination == "" || pyStrip destination == "" then some .noDestination
  else
    let dest_clean := pyStrip destination
    if dest_clean.length ≤ 1 then some .tooShort
    else if pyIsDigit (removeSpaces dest_clean) then some .digitsOnly
    else if INVALID_DESTINATIONS.contains (pyLowerStr dest_clean) then
      if space_words.contains (pyLowerStr dest_clean) then some .denySpace
      else if fictional_words.contains (pyLowerStr dest_clean) then some .denyFictional
      else some .denyVague
    else none

/-- tools.py _validate_trip_input: first failing rule wins, None when valid. -/
def _validate_trip_input (destination : String) (start_date : Option String := none)
    (end_date : Option String := none) (duration_days : Option Int := none)
    (budget : Option Rat := none) (today : PyDateTime := {year := 1, month := 1, day := 1}) :
    Option VError :=
  match destinationChecks destination with
  | some e => some e
  | none =>
    match budgetChecks budget with
    | some e => some e
    | none =>
      match dateChecks start_date end_date today with
      | some e => some e
      | none => durationChecks duration_days

/- ═══════════════ Deduplication helper (tools.py _extract_month_year) ═══════ -/

/-- Extract (year, month) via strptime(date_str[:10], "%Y-%m-%d");
    None for a missing, empty or unparseable date string. -/
def _extract_month_year (date_str : Option String) : Option (Nat × Nat) :=
  match date_str with
  | none => none
  | some s =>
    if s == "" then none  -- `if not date_str` truthiness
    else (strptimeYMD (pyTake s 10)).map (fun ymd => (ymd.1, ymd.2.1))

/- ═══════════════ Tool 1: plan_and_save_trip (tools.py lines 226-426) ═══════ -/

/-- Arguments of plan_and_save_trip (db session excluded, threaded apart). -/
structure PlanArgs where
  destination : String
  user_id : Nat
  start_date : Option String := none
  end_date : Option String := none
  duration_days : Option Int := none
  budget : Option Rat := none
  travelers_count : Int := 1
  preferences : Option (List String) := none
  country_code : Option String := none
deriving Repr

/-- The claim-relevant fields of the result dictionary (messages elided). -/
structure PlanResult where
  status : String
  trip_id : Option Nat := none
  destination : Option String := none
  duration_days : Option Int := none
  budget : Option Rat := none
deriving Repr

/-- destination.strip().lower() -/
def pyNorm (s : String) : String := pyLowerStr (pyStrip s)

/-- Python truthiness of an optional list. -/
def truthyList (l : Option (List String)) : Bool :=
  match l with
  | some (_ :: _) => true
  | _ => false

/-- Python truthiness of an optional string. -/
def truthyStr (s : Option String) : Bool :=
  match s with
  | some s' => s' != ""
  | none => false

/-- The new row built by the INSERT branches. -/
def newTripOf (a : PlanArgs) (s : TripStore) : Trip := {
  id := s.nextId
  user_id := a.user_id
  destination := a.destination
  start_date := a.start_date
  end_date := a.end_date
  duration_days := a.duration_days
  budget := a.budget
  travelers_count := a.travelers_count
  status := "planning"
  trip_metadata := {
    preferences := some (a.preferences.getD [])  -- preferences or []
    source := some "user_input"
    country_code := a.country_code } }

/-- The INSERT branches (cases 1 and 2): build the new row and append it. -/
def insertNewTrip (a : PlanArgs) (s : TripStore) : PlanResult × TripStore :=
  let new_trip : Trip := newTripOf a s
  ({ status := "created", trip_id := some new_trip.id,
     destination := some new_trip.destination,
     duration_days := new_trip.duration_days, budget := new_trip.budget },
   { trips := s.trips ++ [new_trip], nextId := s.nextId + 1 })

/-- The row as mutated by the UPDATE branches: copy provided fields onto the
    existing row and merge preferences / country_code into the metadata. -/
def updatedTripOf (a : PlanArgs) (ex : Trip) : Trip :=
  let md := ex.trip_metadata
  let md' := { md with
    preferences := if truthyList a.preferences then a.preferences else md.preferences
    country_code :=
      if truthyStr a.country_code && !truthyStr md.country_code then a.country_code
      else md.country_code }
  { ex with
    start_date := if a.start_date.isSome then a.start_date else ex.start_date
    end_date := if a.end_date.isSome then a.end_date else ex.end_date
    duration_days := if a.duration_days.isSome then a.duration_days else ex.duration_days
    budget := if a.budget.isSome then a.budget else ex.budget
    travelers_count := if a.travelers_count != 1 then a.travelers_count else ex.travelers_count
    trip_metadata := md' }

/-- The UPDATE branches (cases 3 and 5). -/
def updateExistingTrip (a : PlanArgs) (ex : Trip) (s : TripStore) :
    PlanResult × TripStore :=
  let ex' := updatedTripOf a ex
  ({ status := "updated", trip_id := some ex'.id,
     destination := some ex'.destination,
     duration_days := ex'.duration_days, budget := ex'.budget },
   s.replaceById ex')

/-- tools.py plan_and_save_trip: validate, deduplicate, then write. -/
def plan_and_save_trip (a : PlanArgs) (today : PyDateTime) (s : TripStore) :
    PlanResult × TripStore :=
  match _validate_trip_input a.destination a.start_date a.end_date
      a.duration_days a.budget today with
  | some _ => ({ status := "validation_error" }, s)
  | none =>
    let destination_normalised := pyNorm a.destination
    let existing_trips := s.trips.filter
      (fun t => t.user_id == a.user_id && t.status == "planning")
    match existing_trips.find?
        (fun t => pyNorm t.destination == destination_normalised) with
    | none => insertNewTrip a s  -- Case 1: no conflict
    | some existing =>
      let existing_month_year := _extract_month_year existing.start_date
      let new_month_year := _extract_month_year a.start_date
      if new_month_year.isNone && existing_month_year.isNone then
        -- Case 4: both undated, ask the user
        ({ status := "needs_clarification", trip_id := some existing.id,
           destination := some existing.destination }, s)
      else if existing_month_year.isNone && new_month_year.isSome then
        updateExistingTrip a existing s  -- Case 5
      else if existing_month_year != new_month_year then
        insertNewTrip a s  -- Case 2: genuinely distinct trip
      else
        updateExistingTrip a existing s  -- Case 3: same month, upsert

/-- All planning-status rows of a user whose destination matches, in store
    order; used to state the deduplication claims. -/
def matchingTrips (s : TripStore) (uid : Nat) (dn : String) : List Trip :=
  s.trips.filter
    (fun t => t.user_id == uid && t.status == "planning" && pyNorm t.destination == dn)

/- ═══════════════ Tool 3: get_trip_details (tools.py lines 454-473) ═══════ -/

structure TripDetailsData where
  id : Nat
  destination : String
  start_date : Option String
  end_date : Option String
  duration_days : Option Int
  budget : Option Rat
  travelers_count : Int
  status : String
  preferences : List String
  notes : String
  created_at : String
deriving Repr

inductive TripDetails where
  | notFound : TripDetails
  | found : TripDetailsData → TripDetails
deriving Repr

def get_trip_details (trip_id : Nat) (s : TripStore) : TripDetails :=
  match s.byId trip_id with
  | none => .notFound
  | some trip => .found {
      id := trip.id
      destination := trip.destination
      start_date := trip.start_date
      end_date := trip.end_date
      duration_days := trip.duration_days
      budget := trip.budget
      travelers_count := trip.travelers_count
      status := trip.status
      preferences := trip.trip_metadata.preferences.getD []
      notes := trip.trip_metadata.notes.getD ""
      created_at := trip.created_at }

/- ═══════════════ Tool 4: update_trip (tools.py lines 478-511) ═══════ -/

structure UpdateArgs where
  destination : Option String := none
  start_date : Option String := none
  end_date : Option String := none
  duration_days : Option Int := none
  budget : Option Rat := none
  travelers_count : Option Int := none
  status : Option String := none
deriving Repr

inductive UpdateResult where
  | notFound : UpdateResult
  | updated : Nat → String → UpdateResult
deriving DecidableEq, Repr

/-- tools.py update_trip: copy every provided field, no validation at all. -/
def update_trip (trip_id : Nat) (u : UpdateArgs) (s : TripStore) :
    UpdateResult × TripStore :=
  match s.byId trip_id with
  | none => (.notFound, s)
  | some trip =>
    let trip' := { trip with
      destination := u.destination.getD trip.destination
      start_date := if u.start_date.isSome then u.start_date else trip.start_date
      end_date := if u.end_date.isSome then u.end_date else trip.end_date
      duration_days := if u.duration_days.isSome then u.duration_days else trip.duration_days
      budget := if u.budget.isSome then u.budget else trip.budget
      travelers_count := u.travelers_count.getD trip.travelers_count
      status := u.status.getD trip.status }
    (.updated trip'.id trip'.destination, s.replaceById trip')

/-- main.py PUT /api/trips/{id}: same field copying as the tool, plus the
    notes / checklist / expenses metadata keys and the updated_at stamp. -/
structure HttpUpdateArgs extends UpdateArgs where
  notes : Option String := none
  checklist : Option Json := none
  expenses : Option Json := none
deriving Repr

def update_trip_http (trip_id : Nat) (u : HttpUpdateArgs) (now : String)
    (s : TripStore) : Option Trip × TripStore :=
  match s.byId trip_id with
  | none => (none, s)
  | some trip =>
    let md := trip.trip_metadata
    let md' :=
      if u.notes.isSome || u.checklist.isSome || u.expenses.isSome then
        { md with
          notes := if u.notes.isSome then u.notes else md.notes
          checklist := if u.checklist.isSome then u.checklist else md.checklist
          expenses := if u.expenses.isSome then u.expenses else md.expenses }
      else md
    let trip' := { trip with
      destination := u.destination.getD trip.destination
      start_date := if u.start_date.isSome then u.start_date else trip.start_date
      end_date := if u.end_date.isSome then u.end_date else trip.end_date
      duration_days := if u.duration_days.isSome then u.duration_days else trip.duration_days
      budget := if u.budget.isSome then u.budget else trip.budget
      travelers_count := u.travelers_count.getD trip.travelers_count
      status := u.status.getD trip.status
      trip_metadata := md'
      updated_at := some now }
    (some trip', s.replaceById trip')

/- ═══════════ Tool 6: generate_itinerary (tools.py lines 523-690) ═══════════
   The OpenAI chat call together with json.loads of its (code-fence-stripped)
   text is the external collaborator; it is modelled by an oracle outcome.
   The prompt string only feeds that collaborator and is elided. -/

inductive Oracle where
  | callError : Oracle   -- the client call itself raised
  | parseError : Oracle  -- the returned text failed json.loads
  | parsed : Json → Oracle
deriving Repr

inductive GenResult where
  | notFound : GenResult  -- {"error": "Trip with ID … not found"}
  | genError : GenResult  -- the error dictionaries of the except blocks
  | success (trip_id : Nat) (destination : String) (days_generated : Nat)
      (total_trip_days : Int) (partialFlag : Bool)
      (itinerary flights hotels : Json) : GenResult
deriving Repr

/-- trip.duration_days or 5 (Python `or`: 0 and None are both falsy). -/
def tripDurationOf (trip : Trip) : Int :=
  match trip.duration_days with
  | none => 5
  | some d => if d == 0 then 5 else d

/-- The capped number of days the generation prompt asks for. -/
def requestedDays (trip : Trip) : Int :=
  let td := tripDurationOf trip
  if td > 5 then 5 else td

/-- The dates-list prelude parses a truthy start_date with fromisoformat
    OUTSIDE the try block; failure there is an uncaught ValueError. -/
def startDateParses (trip : Trip) : Bool :=
  match trip.start_date with
  | none => true
  | some sd => if sd == "" then true else (fromisoformat (replaceZ sd)).isSome

/-- The itinerary_config dictionary persisted into trip_metadata. -/
def itineraryConfigJson (trip : Trip) (now : String) (days_generated : Nat) : Json :=
  let td := tripDurationOf trip
  .obj [
    ("destination", .str trip.destination),
    ("duration_days", .num td),
    ("start_date", match trip.start_date with
      | some sd => if sd == "" then .null else .str sd  -- `if trip.start_date`
      | none => .null),
    ("generated_at", .str now),
    ("detail_level", .str "full"),
    ("days_generated", .num days_generated),
    ("total_trip_days", .num td),
    ("is_partial", .bool (td > 5))]

/-- tools.py generate_itinerary.  `Except.error ()` models an exception that
    escapes the function (the pre-try date parsing); the except blocks inside
    the try return GenResult.genError. -/
def generate_itinerary (trip_id : Nat) (s : TripStore)
    (_preferences : Option (List String)) (oracle : Oracle) (now : String) :
    Except Unit GenResult × TripStore :=
  match s.byId trip_id with
  | none => (.ok .notFound, s)
  | some trip =>
    if !startDateParses trip then (.error (), s)
    else
      match oracle with
      | .callError => (.ok .genError, s)
      | .parseError => (.ok .genError, s)
      | .parsed itinerary_data =>
        match pyDictGet itinerary_data "itinerary" (.arr []) with
        | none => (.ok .genError, s)  -- .get on a non-dict raised
        | some itinVal =>
          match pyLen itinVal with
          | none => (.ok .genError, s)  -- len() of an unsized value raised
          | some days_generated =>
            let td := tripDurationOf trip
            let flightsVal := jGetD itinerary_data "flights" (.arr [])
            let hotelsVal := jGetD itinerary_data "hotels" (.arr [])
            let md' := { trip.trip_metadata with
              itinerary := some itinVal
              flights := some flightsVal
              hotels := some hotelsVal
              itinerary_config := some (itineraryConfigJson trip now days_generated) }
            let trip' := { trip with trip_metadata := md' }
            (.ok (.success trip.id trip.destination days_generated td (td > 5)
                    itinVal flightsVal hotelsVal),
             s.replaceById trip')

/-- The oracle outcomes the spec calls generation failures: the external call
    raised, its text failed JSON parsing, or the parsed document does not have
    the expected shape (no dictionary, or an unsized itinerary value). -/
def oracleBad (o : Oracle) : Bool :=
  match o with
  | .callError => true
  | .parseError => true
  | .parsed j =>
    match pyDictGet j "itinerary" (.arr []) with
    | none => true
    | some v => (pyLen v).isNone

/- ═══════════ POST /api/trips/{id}/activities (main.py lines 187-241) ═══════ -/

structure ActivityCreate where
  day : Int
  time : String
  type : String
  title : String
  location : Option String := none
  description : Option String := none
  notes : Option String := none
deriving Repr

/-- main.py _compute_day_date: strptime the start date and add day-1 days;
    a ValueError (unparseable start) yields "".  (Date arithmetic overflowing
    the Python date range is modelled as "" as well; no claim reaches it.) -/
def _compute_day_date (trip : Trip) (day : Int) : String :=
  match trip.start_date with
  | none => ""
  | some sd =>
    if sd == "" then ""  -- `if trip.start_date:` truthiness
    else
      match strptimeYMD sd with
      | none => ""
      | some (y, m, d) =>
        let o : Int := (toOrdinal y m d : Int) + (day - 1)
        if 1 ≤ o && o ≤ 3652059 then
          let ymd := fromOrdinal o.toNat
          formatYMD ymd.1 ymd.2.1 ymd.2.2
        else ""

/-- The freshly built manual activity dictionary. -/
def newActivityJson (a : ActivityCreate) (uuid : String) : Json :=
  .obj [
    ("id", .str ("manual_" ++ uuid)),
    ("time", .str a.time),
    ("type", .str a.type),
    ("title", .str a.title),
    ("location", .str (a.location.getD "")),
    ("description", .str (a.description.getD "")),
    ("notes", .str (a.notes.getD "")),
    ("booking_ref", .null)]

/-- next((d for d in itinerary if d.get("day") == activity.day), None):
    lazily scans; a non-dict element hit before a match raises (error). -/
def findDayEntry (dayNum : Int) : List Json → Except Unit (Option (Nat × Json))
  | [] => .ok none
  | d :: rest =>
    match d with
    | .obj kvs =>
      if jEqInt ((jLookup kvs "day").getD .null) dayNum then .ok (some (0, d))
      else (findDayEntry dayNum rest).map (fun o => o.map (fun p => (p.1 + 1, p.2)))
    | _ => .error ()

/-- a.get("time", "00:00") > activity.time for one scanned activity;
    none models the TypeError / AttributeError on malformed entries. -/
def timeGt (x : Json) (t : String) : Option Bool :=
  match x with
  | .obj kvs =>
    match (jLookup kvs "time").getD (.str "00:00") with
    | .str s => some (pyStrLt t s)
    | _ => none
  | _ => none

/-- next((i for i, a in enumerate(activities) if a.get("time","00:00") >
    activity.time), len(activities)): index of the first strictly later
    activity, scanning lazily. -/
def insertIdxScan (t : String) : List Json → Except Unit Nat
  | [] => .ok 0
  | x :: xs =>
    match timeGt x t with
    | none => .error ()
    | some true => .ok 0
    | some false => (insertIdxScan t xs).map (· + 1)

/-- The sort key d.get("day", 0) of the itinerary.sort call, as an integer;
    none models the TypeError on non-numeric keys or non-dict entries. -/
def dayKeyInt (d : Json) : Option Int :=
  match d with
  | .obj kvs =>
    match (jLookup kvs "day").getD (.num 0) with
    | .num n => some n
    | .bool b => some (if b then 1 else 0)
    | _ => none
  | _ => none

/-- itinerary.sort(key=lambda d: d.get("day", 0)): stable sort by day key. -/
def sortByDayKey (l : List Json) : Option (List Json) :=
  (l.mapM (fun d => (dayKeyInt d).map (fun k => (d, k)))).map
    (fun pairs => (pairs.mergeSort (fun p q => decide (p.2 ≤ q.2))).map (fun p => p.1))

/-- day_entry["activities"] = activities: replace the key on the day dict. -/
def setDayActivities (d : Json) (v : Json) : Json :=
  match d with
  | .obj kvs => .obj (jStore kvs "activities" v)
  | _ => d

inductive AddResult where
  | notFound : AddResult
  | ok : Trip → AddResult
deriving Repr

/-- Shared tail of add_activity: persist the new itinerary list. -/
def addActivityFinish (trip : Trip) (itin : List Json) (now : String)
    (s : TripStore) : Except Unit AddResult × TripStore :=
  let trip' := { trip with
    trip_metadata := { trip.trip_metadata with itinerary := some (.arr itin) }
    updated_at := some now }
  (.ok (.ok trip'), s.replaceById trip')

/-- main.py add_activity: insert a manual activity into its day entry at the
    position given by insertIdxScan, or open a new day entry and re-sort. -/
def add_activity (trip_id : Nat) (a : ActivityCreate) (uuid now : String)
    (s : TripStore) : Except Unit AddResult × TripStore :=
  match s.byId trip_id with
  | none => (.ok .notFound, s)
  | some trip =>
    let mdItin := trip.trip_metadata.itinerary
    match (match mdItin with | none => some [] | some j => pyList j) with
    | none => (.error (), s)  -- list() of a non-iterable raised
    | some itinerary =>
      let new_activity := newActivityJson a uuid
      match findDayEntry a.day itinerary with
      | .error _ => (.error (), s)
      | .ok (some (idx, day_entry)) =>
        match pyList (jGetD day_entry "activities" (.arr [])) with
        | none => (.error (), s)
        | some activities =>
          match insertIdxScan a.time activities with
          | .error _ => (.error (), s)
          | .ok insert_idx =>
            let activities' :=
              activities.take insert_idx ++ [new_activity] ++ activities.drop insert_idx
            let day' := setDayActivities day_entry (.arr activities')
            addActivityFinish trip (itinerary.set idx day') now s
      | .ok none =>
        let newDay : Json := .obj [
          ("day", .num a.day),
          ("date", .str (_compute_day_date trip a.day)),
          ("title", .str ("Day " ++ toString a.day)),
          ("activities", .arr [new_activity])]
        match sortByDayKey (itinerary ++ [newDay]) with
        | none => (.error (), s)
        | some itin' => addActivityFinish trip itin' now s

/- ═══════════ Operation sequences for the status invariant claim ═══════════ -/

inductive Op where
  | plan (a : PlanArgs) (today : PyDateTime) : Op
  | update (trip_id : Nat) (u : UpdateArgs) : Op
  | updateHttp (trip_id : Nat) (u : HttpUpdateArgs) (now : String) : Op
  | gen (trip_id : Nat) (prefs : Option (List String)) (o : Oracle) (now : String) : Op

/-- Store effect of one core operation (returned value discarded). -/
def applyOp (s : TripStore) : Op → TripStore
  | .plan a today => (plan_and_save_trip a today s).2
  | .update trip_id u => (update_trip trip_id u s).2
  | .updateHttp trip_id u now => (update_trip_http trip_id u now s).2
  | .gen trip_id prefs o now => (generate_itinerary trip_id s prefs o now).2

def applyOps (s : TripStore) (ops : List Op) : TripStore :=
  ops.foldl applyOp s

/-- The status enumeration of the data model. -/
def STATUS_VALUES : List String := ["planning", "booked", "completed", "cancelled"]

def statusesOK (s : TripStore) : Prop :=
  ∀ t ∈ s.trips, t.status ∈ STATUS_VALUES

/-- An operation whose explicit status argument (if any) stays inside the
    enumeration. -/
def opStatusOK : Op → Prop
  | .update _ u => ∀ st ∈ u.status, st ∈ STATUS_VALUES
  | .updateHttp _ u _ => ∀ st ∈ u.status, st ∈ STATUS_VALUES
  | _ => True

/- ═══════════════ Supporting lemmas ═══════════════ -/

theorem find?_filter_eq_head?_filter (l : List Trip) (p q : Trip → Bool) :
    (l.filter q).find? p = (l.filter (fun x => q x && p x)).head? := by
  induction l with
  | nil => rfl
  | cons a l ih =>
    by_cases hq : q a
    · by_cases hp : p a
      · simp [List.filter_cons, hq, hp, List.find?]
      · simp [List.filter_cons, hq, hp, List.find?, ih]
    · simp [List.filter_cons, hq, List.find?, ih]

/-- The existing-trip scan of plan_and_save_trip, restated via matchingTrips. -/
theorem plan_scan_eq_matching (s : TripStore) (uid : Nat) (dn : String) :
    ((s.trips.filter (fun t => t.user_id == uid && t.status == "planning")).find?
      (fun t => pyNorm t.destination == dn)) = (matchingTrips s uid dn).head? := by
  simpa [matchingTrips, Bool.and_assoc] using
    find?_filter_eq_head?_filter s.trips
      (fun t => pyNorm t.destination == dn)
      (fun t => t.user_id == uid && t.status == "planning")

theorem find?_append_of_none {α : Type} (p : α → Bool) (l1 l2 : List α)
    (h : l1.find? p = none) : (l1 ++ l2).find? p = l2.find? p := by
  induction l1 with
  | nil => rfl
  | cons a l ih =>
    by_cases hp : p a = true
    · rw [List.find?_cons_of_pos _ hp] at h
      exact absurd h (by simp)
    · rw [List.find?_cons_of_neg _ hp] at h
      rw [List.cons_append, List.find?_cons_of_neg _ hp]
      exact ih h

theorem byId_mem (s : TripStore) (tid : Nat) (t : Trip)
    (h : s.byId tid = some t) : t ∈ s.trips :=
  List.mem_of_find?_eq_some h

theorem byId_id (s : TripStore) (tid : Nat) (t : Trip)
    (h : s.byId tid = some t) : t.id = tid := by
  have := List.find?_some h
  simpa using this

theorem find?_replace {l : List Trip} {tid : Nat} {trip t' : Trip}
    (h : l.find? (fun x => x.id == tid) = some trip) (hid : t'.id = trip.id) :
    (l.map (fun x => if x.id == t'.id then t' else x)).find?
      (fun x => x.id == tid) = some t' := by
  have htid : trip.id = tid := by simpa using List.find?_some h
  induction l with
  | nil => simp at h
  | cons a l ih =>
    by_cases ha : (a.id == tid) = true
    · rw [List.find?_cons_of_pos l (show (fun x : Trip => x.id == tid) a = true from ha)] at h
      have haeq : a = trip := by injection h
      have h1 : (a.id == t'.id) = true := by
        rw [haeq, hid]; exact beq_self_eq_true _
      have h2 : (fun x : Trip => x.id == tid) t' = true := by
        show (t'.id == tid) = true
        rw [hid, htid]; exact beq_self_eq_true _
      rw [List.map_cons, if_pos h1,
        List.find?_cons_of_pos (List.map (fun x => if (x.id == t'.id) = true then t' else x) l) h2]
    · rw [List.find?_cons_of_neg l (show ¬ (fun x : Trip => x.id == tid) a = true from ha)] at h
      have h1 : ¬ (a.id == t'.id) = true := by
        rw [hid, htid]; exact ha
      rw [List.map_cons, if_neg h1,
        List.find?_cons_of_neg (List.map (fun x => if (x.id == t'.id) = true then t' else x) l)
          (show ¬ (fun x : Trip => x.id == tid) a = true from ha)]
      exact ih h

theorem byId_replaceById (s : TripStore) (tid : Nat) (trip t' : Trip)
    (h : s.byId tid = some trip) (hid : t'.id = trip.id) :
    (s.replaceById t').byId tid = some t' :=
  find?_replace h hid

theorem matchingTrips_append (s : TripStore) (uid : Nat) (dn : String)
    (t : Trip) :
    matchingTrips { s with trips := s.trips ++ [t] } uid dn =
      matchingTrips s uid dn ++
        (if t.user_id == uid && t.status == "planning" && pyNorm t.destination == dn
         then [t] else []) := by
  simp only [matchingTrips, List.filter_append]
  congr 1
  by_cases h : (t.user_id == uid && t.status == "planning" && pyNorm t.destination == dn)
  · simp [List.filter, h]
  · simp [List.filter, h]

/- Branch lemmas for plan_and_save_trip: each dedup case, with the store kept
   abstract so that successive calls compose. -/

theorem plan_branch_insert_empty (a : PlanArgs) (today : PyDateTime) (s : TripStore)
    (hval : _validate_trip_input a.destination a.start_date a.end_date
      a.duration_days a.budget today = none)
    (hhead : (matchingTrips s a.user_id (pyNorm a.destination)).head? = none) :
    plan_and_save_trip a today s = insertNewTrip a s := by
  simp only [plan_and_save_trip, hval, plan_scan_eq_matching, hhead]

theorem plan_branch_clarify (a : PlanArgs) (today : PyDateTime) (s : TripStore)
    (ex : Trip)
    (hval : _validate_trip_input a.destination a.start_date a.end_date
      a.duration_days a.budget today = none)
    (hhead : (matchingTrips s a.user_id (pyNorm a.destination)).head? = some ex)
    (hnew : _extract_month_year a.start_date = none)
    (hex : _extract_month_year ex.start_date = none) :
    plan_and_save_trip a today s =
      ({ status := "needs_clarification", trip_id := some ex.id,
         destination := some ex.destination }, s) := by
  simp only [plan_and_save_trip, hval, plan_scan_eq_matching, hhead]
  simp [hnew, hex]

theorem plan_branch_update_undated (a : PlanArgs) (today : PyDateTime)
    (s : TripStore) (ex : Trip)
    (hval : _validate_trip_input a.destination a.start_date a.end_date
      a.duration_days a.budget today = none)
    (hhead : (matchingTrips s a.user_id (pyNorm a.destination)).head? = some ex)
    (hex : _extract_month_year ex.start_date = none)
    (hnew : (_extract_month_year a.start_date).isSome = true) :
    plan_and_save_trip a today s = updateExistingTrip a ex s := by
  simp only [plan_and_save_trip, hval, plan_scan_eq_matching, hhead]
  have hnn : (_extract_month_year a.start_date).isNone = false := by
    cases h : _extract_month_year a.start_date with
    | none => rw [h] at hnew; simp at hnew
    | some p => rfl
  simp [hnn, hex, hnew]

theorem plan_branch_insert_diff (a : PlanArgs) (today : PyDateTime)
    (s : TripStore) (ex : Trip) (p q : Nat × Nat)
    (hval : _validate_trip_input a.destination a.start_date a.end_date
      a.duration_days a.budget today = none)
    (hhead : (matchingTrips s a.user_id (pyNorm a.destination)).head? = some ex)
    (hex : _extract_month_year ex.start_date = some p)
    (hnew : _extract_month_year a.start_date = some q)
    (hne : p ≠ q) :
    plan_and_save_trip a today s = insertNewTrip a s := by
  simp only [plan_and_save_trip, hval, plan_scan_eq_matching, hhead]
  simp [hex, hnew, hne]

theorem plan_branch_update_same (a : PlanArgs) (today : PyDateTime)
    (s : TripStore) (ex : Trip) (p : Nat × Nat)
    (hval : _validate_trip_input a.destination a.start_date a.end_date
      a.duration_days a.budget today = none)
    (hhead : (matchingTrips s a.user_id (pyNorm a.destination)).head? = some ex)
    (hex : _extract_month_year ex.start_date = some p)
    (hnew : _extract_month_year a.start_date = some p) :
    plan_and_save_trip a today s = updateExistingTrip a ex s := by
  simp only [plan_and_save_trip, hval, plan_scan_eq_matching, hhead]
  simp [hex, hnew]

/-- Success branch of generate_itinerary, with the store kept abstract. -/
theorem gen_success (s : TripStore) (tid : Nat) (trip : Trip) (j v : Json)
    (n : Nat) (prefs : Option (List String)) (now : String)
    (hfind : s.byId tid = some trip)
    (hsd : startDateParses trip = true)
    (hv : pyDictGet j "itinerary" (.arr []) = some v)
    (hn : pyLen v = some n) :
    generate_itinerary tid s prefs (.parsed j) now =
      (.ok (.success trip.id trip.destination n (tripDurationOf trip)
          (decide (tripDurationOf trip > 5)) v
          (jGetD j "flights" (.arr [])) (jGetD j "hotels" (.arr []))),
       s.replaceById { trip with trip_metadata := { trip.trip_metadata with
          itinerary := some v
          flights := some (jGetD j "flights" (.arr []))
          hotels := some (jGetD j "hotels" (.arr []))
          itinerary_config := some (itineraryConfigJson trip now n) } }) := by
  simp only [generate_itinerary, hfind, hsd, hv, hn]
  simp

/- ═══════════════ Claim C1 ═══════════════ -/

def c1Today : PyDateTime := { year := 2026, month := 10, day := 12 }

def c1Args : PlanArgs := { destination := "Gotham", user_id := 1 }

/-- C1: the claim says every destination matching a deny-list entry
    case-insensitively yields validation_error with no store write.  The code
    lowercases the destination before the membership test, but the deny-list
    itself contains the capitalised entry "Gotham", which no lowercased string
    can match: plan_and_save_trip("Gotham") passes validation and inserts a
    row.  (The message-tailoring set fictional_words even lists "gotham" in
    lowercase, so the intended rejection branch is unreachable: a code bug.) -/
theorem c1_deny_list_gotham_code_bug :
    "Gotham" ∈ INVALID_DESTINATIONS ∧
    pyNorm "Gotham" = "gotham" ∧
    "gotham" ∉ INVALID_DESTINATIONS ∧
    "gotham" ∈ fictional_words ∧
    _validate_trip_input "Gotham" none none none none c1Today = none ∧
    (plan_and_save_trip c1Args c1Today {}).1.status = "created" ∧
    ((plan_and_save_trip c1Args c1Today {}).2.trips.map Trip.destination) = ["Gotham"] :=
  ⟨by decide, by decide, by decide, by decide, rfl, rfl, rfl⟩

/- ═══════════════ Claim C2 ═══════════════ -/

def c2Trip : Trip := { id := 1, user_id := 1, destination := "Tokyo", duration_days := some 10 }

def c2Store : TripStore := { trips := [c2Trip], nextId := 2 }

def c2SixDays : Json := .arr [.null, .null, .null, .null, .null, .null]

def c2Oracle : Oracle := .parsed (.obj [("itinerary", c2SixDays)])

/-- C2 counterexample: for a duration-10 trip the claim promises
    days_generated ≤ 5, but the code reports the length of whatever itinerary
    list the external collaborator returned — here 6 — without capping it. -/
theorem c2_uncapped_days_counterexample :
    c2Trip.duration_days = some 10 ∧
    (generate_itinerary 1 c2Store none c2Oracle "T").1 =
      .ok (.success 1 "Tokyo" 6 10 true c2SixDays (.arr []) (.arr [])) ∧
    ¬ (6 ≤ 5) :=
  ⟨rfl, rfl, by decide⟩

/- ═══════════════ Claim C4 ═══════════════ -/

def c4Today : PyDateTime := { year := 2026, month := 10, day := 12 }

def c4Args1 : PlanArgs := { destination := "Tokyo", user_id := 1, preferences := some ["beach"] }

def c4Args2 : PlanArgs :=
  { destination := "Tokyo", user_id := 1, start_date := some "2030-05-10",
    preferences := some [] }

def c4Store1 : TripStore := (plan_and_save_trip c4Args1 c4Today {}).2

/-- C4 counterexample: the claim says every non-null field of the request is
    copied onto the existing trip, preferences included.  With the non-null
    empty list as preferences the code leaves the stored preferences
    untouched (`if preferences:` is truthiness, not a None test). -/
theorem c4_empty_preferences_counterexample :
    c4Args2.preferences = some [] ∧
    (plan_and_save_trip c4Args2 c4Today c4Store1).1.status = "updated" ∧
    ((plan_and_save_trip c4Args2 c4Today c4Store1).2.byId 1).map
      (fun t => t.trip_metadata.preferences) = some (some ["beach"]) ∧
    (some ["beach"] : Option (List String)) ≠ some [] :=
  ⟨rfl, rfl, rfl, by decide⟩

/- ═══════════════ Claim C7 ═══════════════ -/

def c7Args : PlanArgs := { destination := "Tokyo", user_id := 1 }

def c7Ops : List Op :=
  [.plan c7Args { year := 2026, month := 10, day := 12 },
   .update 1 { status := some "partying" }]

/-- C7 counterexample: a plan followed by an update_trip carrying the status
    string "partying" leaves a trip whose status is outside the enumeration;
    update_trip stores any supplied status verbatim. -/
theorem c7_status_enum_counterexample :
    ((applyOps {} c7Ops).trips.map Trip.status) = ["partying"] ∧
    "partying" ∉ STATUS_VALUES :=
  ⟨rfl, by decide⟩

/- ═══════════════ Claim C3 ═══════════════ -/

/-- C3: whenever the external generation fails — the call raises, its text
    fails JSON parsing, or the parsed document lacks the expected shape — the
    call produces an error outcome (an error dictionary, or an exception that
    the outer boundary converts) and the trip row, metadata included, is left
    exactly as it was: the store is unchanged. -/
theorem c3_generation_failure_leaves_trip_unchanged
    (s : TripStore) (tid : Nat) (trip : Trip) (prefs : Option (List String))
    (o : Oracle) (now : String)
    (hfind : s.byId tid = some trip) (hbad : oracleBad o = true) :
    (generate_itinerary tid s prefs o now).2 = s ∧
    ((generate_itinerary tid s prefs o now).1 = .error () ∨
     (generate_itinerary tid s prefs o now).1 = .ok .genError) := by
  by_cases hsd : startDateParses trip
  · have herr : (generate_itinerary tid s prefs o now).1 = .ok .genError ∧
        (generate_itinerary tid s prefs o now).2 = s := by
      cases o with
      | callError => simp [generate_itinerary, hfind, hsd]
      | parseError => simp [generate_itinerary, hfind, hsd]
      | parsed j =>
        cases hv : pyDictGet j "itinerary" (.arr []) with
        | none => simp [generate_itinerary, hfind, hsd, hv]
        | some v =>
          simp only [oracleBad, hv] at hbad
          cases hl : pyLen v with
          | none => simp [generate_itinerary, hfind, hsd, hv, hl]
          | some n => rw [hl] at hbad; simp at hbad
    exact ⟨herr.2, .inr herr.1⟩
  · have hsd' : startDateParses trip = false := by simpa using hsd
    have herr : generate_itinerary tid s prefs o now = (.error (), s) := by
      simp [generate_itinerary, hfind, hsd']
    rw [herr]
    exact ⟨rfl, .inl rfl⟩

def c3Trip : Trip := { id := 1, user_id := 1, destination := "Rome" }

def c3Store : TripStore := { trips := [c3Trip], nextId := 2 }

theorem c3_generation_failure_leaves_trip_unchanged_witness :
    c3Store.byId 1 = some c3Trip ∧ oracleBad .parseError = true ∧
    (generate_itinerary 1 c3Store none .parseError "N").2 = c3Store ∧
    ((generate_itinerary 1 c3Store none .parseError "N").1 = .error () ∨
     (generate_itinerary 1 c3Store none .parseError "N").1 = .ok .genError) :=
  ⟨rfl, rfl,
   (c3_generation_failure_leaves_trip_unchanged c3Store 1 c3Trip none .parseError "N"
     rfl rfl).1,
   (c3_generation_failure_leaves_trip_unchanged c3Store 1 c3Trip none .parseError "N"
     rfl rfl).2⟩

/- ═══════════════ Claim C6 ═══════════════ -/

/-- C6: with exactly one existing planning trip for the same user and
    (case-insensitively, after trimming) the same destination, where neither
    the stored start_date nor the incoming one carries a parseable month and
    year, a valid second call writes nothing and returns needs_clarification
    carrying the existing trip id and destination; the store keeps exactly
    that one matching row. -/
theorem c6_both_undated_needs_clarification
    (a : PlanArgs) (today : PyDateTime) (s : TripStore) (t : Trip)
    (hmatch : matchingTrips s a.user_id (pyNorm a.destination) = [t])
    (hval : _validate_trip_input a.destination a.start_date a.end_date
      a.duration_days a.budget today = none)
    (hex : _extract_month_year t.start_date = none)
    (hnew : _extract_month_year a.start_date = none) :
    (plan_and_save_trip a today s).1 =
      { status := "needs_clarification", trip_id := some t.id,
        destination := some t.destination } ∧
    (plan_and_save_trip a today s).2 = s ∧
    matchingTrips (plan_and_save_trip a today s).2 a.user_id (pyNorm a.destination)
      = [t] := by
  have hres : plan_and_save_trip a today s =
      ({ status := "needs_clarification", trip_id := some t.id,
         destination := some t.destination }, s) := by
    simp only [plan_and_save_trip, hval, plan_scan_eq_matching, hmatch, List.head?]
    simp [hnew, hex]
  rw [hres]
  exact ⟨rfl, rfl, hmatch⟩

def c6ArgY : PlanArgs := { destination := " ROME ", user_id := 7 }

def c6TripY : Trip := { id := 4, user_id := 7, destination := "Rome" }

def c6StoreY : TripStore := { trips := [c6TripY], nextId := 5 }

def c6TodayY : PyDateTime := { year := 2026, month := 10, day := 12 }

theorem c6_both_undated_needs_clarification_witness :
    matchingTrips c6StoreY c6ArgY.user_id (pyNorm c6ArgY.destination) = [c6TripY] ∧
    _validate_trip_input c6ArgY.destination c6ArgY.start_date c6ArgY.end_date
      c6ArgY.duration_days c6ArgY.budget c6TodayY = none ∧
    (plan_and_save_trip c6ArgY c6TodayY c6StoreY).1 =
      { status := "needs_clarification", trip_id := some 4,
        destination := some "Rome" } ∧
    (plan_and_save_trip c6ArgY c6TodayY c6StoreY).2 = c6StoreY :=
  ⟨rfl, rfl,
   (c6_both_undated_needs_clarification c6ArgY c6TodayY c6StoreY c6TripY
     rfl rfl rfl rfl).1,
   (c6_both_undated_needs_clarification c6ArgY c6TodayY c6StoreY c6TripY
     rfl rfl rfl rfl).2.1⟩

/- ═══════════════ Claim C5 ═══════════════ -/

/-- C5: starting from a store with no planning trip for this user and
    destination, two valid calls for the same destination whose start dates
    carry different (year, month) pairs insert two distinct rows with distinct
    ids, both calls answering created. -/
theorem c5_different_months_two_trips
    (a1 a2 : PlanArgs) (today : PyDateTime) (s : TripStore) (p1 p2 : Nat × Nat)
    (huser : a2.user_id = a1.user_id) (hdest : a2.destination = a1.destination)
    (hempty : matchingTrips s a1.user_id (pyNorm a1.destination) = [])
    (hval1 : _validate_trip_input a1.destination a1.start_date a1.end_date
      a1.duration_days a1.budget today = none)
    (hval2 : _validate_trip_input a2.destination a2.start_date a2.end_date
      a2.duration_days a2.budget today = none)
    (hm1 : _extract_month_year a1.start_date = some p1)
    (hm2 : _extract_month_year a2.start_date = some p2)
    (hne : p1 ≠ p2) :
    (plan_and_save_trip a1 today s).1.status = "created" ∧
    (plan_and_save_trip a1 today s).1.trip_id = some s.nextId ∧
    (plan_and_save_trip a2 today (plan_and_save_trip a1 today s).2).1.status
      = "created" ∧
    (plan_and_save_trip a2 today (plan_and_save_trip a1 today s).2).1.trip_id
      = some (s.nextId + 1) ∧
    s.nextId ≠ s.nextId + 1 ∧
    (matchingTrips (plan_and_save_trip a2 today (plan_and_save_trip a1 today s).2).2
      a1.user_id (pyNorm a1.destination)).length = 2 := by
  have hempty' : s.trips.filter
      (fun t => t.user_id == a1.user_id && t.status == "planning" &&
        pyNorm t.destination == pyNorm a1.destination) = [] := hempty
  have hstep1 : plan_and_save_trip a1 today s = insertNewTrip a1 s :=
    plan_branch_insert_empty a1 today s hval1 (by rw [hempty]; rfl)
  have hs1 : (plan_and_save_trip a1 today s).2 =
      { trips := s.trips ++ [newTripOf a1 s], nextId := s.nextId + 1 } := by
    rw [hstep1]; rfl
  have hmatch1 : matchingTrips (plan_and_save_trip a1 today s).2
      a1.user_id (pyNorm a1.destination) = [newTripOf a1 s] := by
    rw [hs1]
    simp only [matchingTrips, List.filter_append, hempty']
    simp [newTripOf, List.filter]
  have hhead : (matchingTrips (plan_and_save_trip a1 today s).2
      a2.user_id (pyNorm a2.destination)).head? = some (newTripOf a1 s) := by
    rw [huser, hdest, hmatch1]; rfl
  have hstep2 : plan_and_save_trip a2 today (plan_and_save_trip a1 today s).2 =
      insertNewTrip a2 (plan_and_save_trip a1 today s).2 :=
    plan_branch_insert_diff a2 today (plan_and_save_trip a1 today s).2
      (newTripOf a1 s) p1 p2 hval2 hhead hm1 hm2 hne
  refine ⟨by rw [hstep1]; rfl, by rw [hstep1]; rfl, ?_, ?_, by omega, ?_⟩
  · rw [hstep2]; rfl
  · rw [hstep2, hs1]; rfl
  · rw [hstep2, hs1]
    simp only [insertNewTrip, matchingTrips, List.filter_append, hempty']
    simp [newTripOf, List.filter, huser, hdest]

def c5Args1 : PlanArgs :=
  { destination := "Tokyo", user_id := 1, start_date := some "2030-05-10" }

def c5Args2 : PlanArgs :=
  { destination := "Tokyo", user_id := 1, start_date := some "2030-06-10" }

def c5Today : PyDateTime := { year := 2026, month := 10, day := 12 }

theorem c5_different_months_two_trips_witness :
    matchingTrips {} 1 (pyNorm "Tokyo") = [] ∧
    _extract_month_year c5Args1.start_date = some (2030, 5) ∧
    _extract_month_year c5Args2.start_date = some (2030, 6) ∧
    (2030, 5) ≠ (2030, 6) ∧
    (plan_and_save_trip c5Args1 c5Today {}).1.status = "created" ∧
    (plan_and_save_trip c5Args2 c5Today
      (plan_and_save_trip c5Args1 c5Today {}).2).1.status = "created" ∧
    (plan_and_save_trip c5Args2 c5Today
      (plan_and_save_trip c5Args1 c5Today {}).2).1.trip_id = some 2 ∧
    (matchingTrips (plan_and_save_trip c5Args2 c5Today
      (plan_and_save_trip c5Args1 c5Today {}).2).2 1 (pyNorm "Tokyo")).length = 2 := by
  have h := c5_different_months_two_trips c5Args1 c5Args2 c5Today {} (2030, 5) (2030, 6)
    rfl rfl rfl rfl rfl rfl rfl (by decide)
  exact ⟨rfl, rfl, rfl, by decide, h.1, h.2.2.1, h.2.2.2.1, h.2.2.2.2.2⟩

/-- C2 amended: for a duration-10 trip (with an absent or parseable start
    date) and a successfully parsed external document, the response carries
    is_partial = true, total_trip_days = 10 and days_generated equal to the
    number of entries of the returned itinerary value — so days_generated ≤ 5
    exactly when the external output respects the requested 5-day cap — and
    the persisted itinerary_config records total_trip_days = 10. -/
theorem c2_partial_generation_amended
    (s : TripStore) (tid : Nat) (trip : Trip) (j v : Json) (n : Nat)
    (prefs : Option (List String)) (now : String)
    (hfind : s.byId tid = some trip)
    (hdur : trip.duration_days = some 10)
    (hsd : startDateParses trip = true)
    (hv : pyDictGet j "itinerary" (.arr []) = some v)
    (hn : pyLen v = some n) :
    requestedDays trip = 5 ∧
    (generate_itinerary tid s prefs (.parsed j) now).1 =
      .ok (.success trip.id trip.destination n 10 true v
        (jGetD j "flights" (.arr [])) (jGetD j "hotels" (.arr []))) ∧
    ∃ t', (generate_itinerary tid s prefs (.parsed j) now).2.byId tid = some t' ∧
      t'.trip_metadata.itinerary_config = some (itineraryConfigJson trip now n) ∧
      jGetD (itineraryConfigJson trip now n) "total_trip_days" .null = .num 10 ∧
      jGetD (itineraryConfigJson trip now n) "is_partial" .null = .bool true := by
  have htd : tripDurationOf trip = 10 := by simp [tripDurationOf, hdur]
  have hgen := gen_success s tid trip j v n prefs now hfind hsd hv hn
  refine ⟨by simp [requestedDays, htd], ?_, ?_⟩
  · rw [hgen, htd]; rfl
  · have hbyid := byId_replaceById s tid trip
      ({ trip with trip_metadata := { trip.trip_metadata with
          itinerary := some v, flights := some (jGetD j "flights" (.arr [])),
          hotels := some (jGetD j "hotels" (.arr [])),
          itinerary_config := some (itineraryConfigJson trip now n) } }) hfind rfl
    refine ⟨_, by rw [hgen]; exact hbyid, rfl, ?_, ?_⟩
    · rw [show jGetD (itineraryConfigJson trip now n) "total_trip_days" Json.null
        = Json.num (tripDurationOf trip) from rfl, htd]
    · rw [show jGetD (itineraryConfigJson trip now n) "is_partial" Json.null
        = Json.bool (decide (tripDurationOf trip > 5)) from rfl, htd]
      rfl

def c2wTrip : Trip := { id := 3, user_id := 1, destination := "Oslo", duration_days := some 10 }

def c2wStore : TripStore := { trips := [c2wTrip], nextId := 4 }

def c2wDays : Json := .arr [.null, .null, .null]

def c2wDoc : Json := .obj [("itinerary", c2wDays)]

theorem c2_partial_generation_amended_witness :
    c2wStore.byId 3 = some c2wTrip ∧ c2wTrip.duration_days = some 10 ∧
    startDateParses c2wTrip = true ∧ pyLen c2wDays = some 3 ∧
    (generate_itinerary 3 c2wStore none (.parsed c2wDoc) "NOW").1 =
      .ok (.success 3 "Oslo" 3 10 true c2wDays (.arr []) (.arr [])) ∧
    ∃ t', (generate_itinerary 3 c2wStore none (.parsed c2wDoc) "NOW").2.byId 3
        = some t' ∧
      t'.trip_metadata.itinerary_config = some (itineraryConfigJson c2wTrip "NOW" 3) ∧
      jGetD (itineraryConfigJson c2wTrip "NOW" 3) "total_trip_days" .null = .num 10 ∧
      jGetD (itineraryConfigJson c2wTrip "NOW" 3) "is_partial" .null = .bool true := by
  have h := c2_partial_generation_amended c2wStore 3 c2wTrip c2wDoc c2wDays 3
    none "NOW" rfl rfl rfl rfl rfl
  exact ⟨rfl, rfl, rfl, rfl, h.2.1, h.2.2⟩

/- ═══════════════ Claim C10 ═══════════════ -/

/-- C10: a trip whose duration_days is unset is treated as a 5-day trip:
    the generation request length is 5, the persisted itinerary_config records
    total_trip_days = 5, and the response reports is_partial = false — the
    call neither fails nor asks for the missing duration. -/
theorem c10_default_duration_five
    (s : TripStore) (tid : Nat) (trip : Trip) (j v : Json) (n : Nat)
    (prefs : Option (List String)) (now : String)
    (hfind : s.byId tid = some trip)
    (hdur : trip.duration_days = none)
    (hsd : startDateParses trip = true)
    (hv : pyDictGet j "itinerary" (.arr []) = some v)
    (hn : pyLen v = some n) :
    tripDurationOf trip = 5 ∧
    requestedDays trip = 5 ∧
    (generate_itinerary tid s prefs (.parsed j) now).1 =
      .ok (.success trip.id trip.destination n 5 false v
        (jGetD j "flights" (.arr [])) (jGetD j "hotels" (.arr []))) ∧
    ∃ t', (generate_itinerary tid s prefs (.parsed j) now).2.byId tid = some t' ∧
      t'.trip_metadata.itinerary_config = some (itineraryConfigJson trip now n) ∧
      jGetD (itineraryConfigJson trip now n) "total_trip_days" .null = .num 5 ∧
      jGetD (itineraryConfigJson trip now n) "is_partial" .null = .bool false := by
  have htd : tripDurationOf trip = 5 := by simp [tripDurationOf, hdur]
  have hgen := gen_success s tid trip j v n prefs now hfind hsd hv hn
  refine ⟨htd, by simp [requestedDays, htd], ?_, ?_⟩
  · rw [hgen, htd]; rfl
  · have hbyid := byId_replaceById s tid trip
      ({ trip with trip_metadata := { trip.trip_metadata with
          itinerary := some v, flights := some (jGetD j "flights" (.arr [])),
          hotels := some (jGetD j "hotels" (.arr [])),
          itinerary_config := some (itineraryConfigJson trip now n) } }) hfind rfl
    refine ⟨_, by rw [hgen]; exact hbyid, rfl, ?_, ?_⟩
    · rw [show jGetD (itineraryConfigJson trip now n) "total_trip_days" Json.null
        = Json.num (tripDurationOf trip) from rfl, htd]
    · rw [show jGetD (itineraryConfigJson trip now n) "is_partial" Json.null
        = Json.bool (decide (tripDurationOf trip > 5)) from rfl, htd]
      rfl

def c10Trip : Trip := { id := 2, user_id := 1, destination := "Lima" }

def c10Store : TripStore := { trips := [c10Trip], nextId := 3 }

def c10Days : Json := .arr [.null, .null, .null, .null, .null]

def c10Doc : Json := .obj [("itinerary", c10Days)]

theorem c10_default_duration_five_witness :
    c10Store.byId 2 = some c10Trip ∧ c10Trip.duration_days = none ∧
    startDateParses c10Trip = true ∧
    requestedDays c10Trip = 5 ∧
    (generate_itinerary 2 c10Store none (.parsed c10Doc) "NOW").1 =
      .ok (.success 2 "Lima" 5 5 false c10Days (.arr []) (.arr [])) ∧
    jGetD (itineraryConfigJson c10Trip "NOW" 5) "total_trip_days" .null = .num 5 := by
  have h := c10_default_duration_five c10Store 2 c10Trip c10Doc c10Days 5
    none "NOW" rfl rfl rfl rfl rfl
  exact ⟨rfl, rfl, rfl, h.2.1, h.2.2.1, h.2.2.2.choose_spec.2.2.1⟩

/- ═══════════════ Claim C7, amended invariant ═══════════════ -/

theorem statusesOK_replace (s : TripStore) (t' : Trip) (hs : statusesOK s)
    (ht : t'.status ∈ STATUS_VALUES) : statusesOK (s.replaceById t') := by
  intro x hx
  simp only [TripStore.replaceById, List.mem_map] at hx
  obtain ⟨y, hy, hxy⟩ := hx
  by_cases h : (y.id == t'.id) = true
  · rw [if_pos h] at hxy; subst hxy; exact ht
  · rw [if_neg h] at hxy; subst hxy; exact hs y hy

theorem plan_store_shape (a : PlanArgs) (today : PyDateTime) (s : TripStore) :
    (plan_and_save_trip a today s).2 = s ∨
    (plan_and_save_trip a today s).2 = (insertNewTrip a s).2 ∨
    ∃ ex ∈ s.trips, (plan_and_save_trip a today s).2 = (updateExistingTrip a ex s).2 := by
  simp only [plan_and_save_trip]
  split
  · exact .inl rfl
  · split
    · exact .inr (.inl rfl)
    · next ex hex =>
      have hmem : ex ∈ s.trips :=
        (List.mem_filter.mp (List.mem_of_find?_eq_some hex)).1
      split
      · exact .inl rfl
      · split
        · exact .inr (.inr ⟨ex, hmem, rfl⟩)
        · split
          · exact .inr (.inl rfl)
          · exact .inr (.inr ⟨ex, hmem, rfl⟩)

theorem statusesOK_plan (a : PlanArgs) (today : PyDateTime) (s : TripStore)
    (hs : statusesOK s) : statusesOK (plan_and_save_trip a today s).2 := by
  rcases plan_store_shape a today s with h | h | ⟨ex, hmem, h⟩
  · rw [h]; exact hs
  · rw [h]
    intro x hx
    rcases List.mem_append.mp hx with hx1 | hx2
    · exact hs x hx1
    · have : x = newTripOf a s := by simpa using hx2
      rw [this]
      show "planning" ∈ STATUS_VALUES
      decide
  · rw [h]
    exact statusesOK_replace s _ hs (hs ex hmem)

theorem statusesOK_update_trip (tid : Nat) (u : UpdateArgs) (s : TripStore)
    (hs : statusesOK s) (hu : ∀ st ∈ u.status, st ∈ STATUS_VALUES) :
    statusesOK (update_trip tid u s).2 := by
  simp only [update_trip]
  split
  · exact hs
  · next trip hfind =>
    apply statusesOK_replace s _ hs
    cases hst : u.status with
    | none => simpa [hst] using hs trip (byId_mem s tid trip hfind)
    | some st => simpa [hst] using hu st hst

theorem statusesOK_update_trip_http (tid : Nat) (u : HttpUpdateArgs)
    (now : String) (s : TripStore) (hs : statusesOK s)
    (hu : ∀ st ∈ u.status, st ∈ STATUS_VALUES) :
    statusesOK (update_trip_http tid u now s).2 := by
  simp only [update_trip_http]
  split
  · exact hs
  · next trip hfind =>
    apply statusesOK_replace s _ hs
    cases hst : u.status with
    | none => simpa [hst] using hs trip (byId_mem s tid trip hfind)
    | some st => simpa [hst] using hu st hst

theorem gen_store_shape (tid : Nat) (s : TripStore)
    (prefs : Option (List String)) (o : Oracle) (now : String) :
    (generate_itinerary tid s prefs o now).2 = s ∨
    ∃ trip ∈ s.trips, ∃ md',
      (generate_itinerary tid s prefs o now).2 =
        s.replaceById { trip with trip_metadata := md' } := by
  simp only [generate_itinerary]
  split
  · exact .inl rfl
  · next trip hfind =>
    have hmem : trip ∈ s.trips := byId_mem s tid trip hfind
    split
    · exact .inl rfl
    · split
      · exact .inl rfl
      · exact .inl rfl
      · split
        · exact .inl rfl
        · split
          · exact .inl rfl
          · exact .inr ⟨trip, hmem, _, rfl⟩

theorem statusesOK_gen (tid : Nat) (s : TripStore)
    (prefs : Option (List String)) (o : Oracle) (now : String)
    (hs : statusesOK s) : statusesOK (generate_itinerary tid s prefs o now).2 := by
  rcases gen_store_shape tid s prefs o now with h | ⟨trip, hmem, md', h⟩
  · rw [h]; exact hs
  · rw [h]
    exact statusesOK_replace s _ hs (hs trip hmem)

theorem statusesOK_applyOp (s : TripStore) (op : Op)
    (hs : statusesOK s) (hop : opStatusOK op) : statusesOK (applyOp s op) := by
  cases op with
  | plan a today => exact statusesOK_plan a today s hs
  | update tid u => exact statusesOK_update_trip tid u s hs hop
  | updateHttp tid u now => exact statusesOK_update_trip_http tid u now s hs hop
  | gen tid prefs o now => exact statusesOK_gen tid s prefs o now hs

/-- C7 amended: after any sequence of core operations in which every
    update_trip call passes a status inside the enumeration (or none), every
    trip status remains in {planning, booked, completed, cancelled};
    plan_and_save_trip and generate_itinerary preserve the invariant
    unconditionally, but update_trip stores any supplied string verbatim, so
    the invariant is conditional on its status arguments. -/
theorem c7_status_invariant_amended (ops : List Op) (s : TripStore)
    (hs : statusesOK s) (hops : ∀ op ∈ ops, opStatusOK op) :
    statusesOK (applyOps s ops) := by
  induction ops generalizing s with
  | nil => exact hs
  | cons op rest ih =>
    exact ih (applyOp s op)
      (statusesOK_applyOp s op hs (hops op (List.mem_cons_self op rest)))
      (fun o ho => hops o (List.mem_cons_of_mem op ho))

def c7wOps : List Op :=
  [.plan { destination := "Tokyo", user_id := 1 } { year := 2026, month := 10, day := 12 },
   .update 1 { status := some "booked" },
   .gen 1 none (.parsed (.obj [("itinerary", .arr [.null])])) "NOW"]

theorem c7_status_invariant_amended_witness :
    statusesOK (applyOps {} c7wOps) := by
  have h1 : statusesOK ({} : TripStore) := by
    intro t ht; simp [TripStore.trips] at ht
  have h2 : ∀ op ∈ c7wOps, opStatusOK op := by
    intro op hop
    simp only [c7wOps, List.mem_cons] at hop
    rcases hop with h | h | h | h
    · rw [h]; trivial
    · rw [h]
      intro st hst
      simp only [Option.mem_def, Option.some.injEq] at hst
      rw [← hst]
      decide
    · rw [h]; trivial
    · simp at h
  exact c7_status_invariant_amended c7wOps {} h1 h2

/- ═══════════════ Claim C8 ═══════════════ -/

def detailsPreferences : TripDetails → Option (List String)
  | .notFound => none
  | .found d => some d.preferences

/-- C8: a trip created by plan_and_save_trip with a preferences list yields,
    on get_trip_details of the returned trip id against the resulting store,
    exactly that list — same elements, same order. -/
theorem c8_preferences_roundtrip (a : PlanArgs) (today : PyDateTime)
    (s : TripStore) (l : List String)
    (hwf : s.wf) (hprefs : a.preferences = some l)
    (hcreated : (plan_and_save_trip a today s).1.status = "created") :
    (plan_and_save_trip a today s).1.trip_id = some s.nextId ∧
    detailsPreferences
      (get_trip_details s.nextId (plan_and_save_trip a today s).2) = some l := by
  have hins : plan_and_save_trip a today s = insertNewTrip a s := by
    revert hcreated
    simp only [plan_and_save_trip]
    split
    · intro h; simp at h
    · split
      · intro _; rfl
      · split
        · intro h; simp at h
        · split
          · intro h; simp [updateExistingTrip] at h
          · split
            · intro _; rfl
            · intro h; simp [updateExistingTrip] at h
  have hfind : TripStore.byId (insertNewTrip a s).2 s.nextId
      = some (newTripOf a s) := by
    show ((s.trips ++ [newTripOf a s]).find? (fun t => t.id == s.nextId))
      = some (newTripOf a s)
    have hnone : s.trips.find? (fun t => t.id == s.nextId) = none := by
      apply List.find?_eq_none.mpr
      intro x hx
      have hlt := hwf.2 x hx
      have hne : x.id ≠ s.nextId := Nat.ne_of_lt hlt
      simp [hne]
    rw [find?_append_of_none _ _ _ hnone]
    simp [List.find?, newTripOf]
  constructor
  · rw [hins]; rfl
  · rw [hins]
    simp only [get_trip_details, hfind, detailsPreferences]
    simp [newTripOf, hprefs]

def c8Args : PlanArgs :=
  { destination := "Lisbon", user_id := 2, preferences := some ["food", "culture"] }

def c8Today : PyDateTime := { year := 2026, month := 10, day := 12 }

theorem c8_preferences_roundtrip_witness :
    (({} : TripStore)).wf ∧
    c8Args.preferences = some ["food", "culture"] ∧
    (plan_and_save_trip c8Args c8Today {}).1.status = "created" ∧
    (plan_and_save_trip c8Args c8Today {}).1.trip_id = some 1 ∧
    detailsPreferences
      (get_trip_details 1 (plan_and_save_trip c8Args c8Today {}).2)
      = some ["food", "culture"] := by
  have hwf : (({} : TripStore)).wf := by
    constructor
    · simp [TripStore.wf]
    · intro t ht; simp at ht
  have h := c8_preferences_roundtrip c8Args c8Today {} ["food", "culture"]
    hwf rfl rfl
  exact ⟨hwf, rfl, rfl, h.1, h.2⟩

/- ═══════════════ Claim C4, amended ═══════════════ -/

theorem find?_id_of_mem_nodup (l : List Trip) (t : Trip) (hmem : t ∈ l)
    (hnodup : (l.map Trip.id).Nodup) : l.find? (fun x => x.id == t.id) = some t := by
  induction l with
  | nil => simp at hmem
  | cons a l ih =>
    rcases List.mem_cons.mp hmem with heq | hmem'
    · subst heq
      exact List.find?_cons_of_pos l (by simp)
    · have hN1 : a.id ∉ l.map Trip.id := (List.nodup_cons.mp hnodup).1
      have hN2 : (l.map Trip.id).Nodup := (List.nodup_cons.mp hnodup).2
      have hane : a.id ≠ t.id := by
        intro hcontra
        exact hN1 (hcontra ▸ List.mem_map_of_mem Trip.id hmem')
      rw [List.find?_cons_of_neg l (by simpa using hane)]
      exact ih hmem' hN2

theorem byId_of_mem_nodup (s : TripStore) (t : Trip) (hmem : t ∈ s.trips)
    (hnodup : (s.trips.map Trip.id).Nodup) : s.byId t.id = some t :=
  find?_id_of_mem_nodup s.trips t hmem hnodup

theorem filter_map_replace (l : List Trip) (pred : Trip → Bool) (t t' : Trip)
    (hN : (l.map Trip.id).Nodup) (hf : l.filter pred = [t])
    (hid : t'.id = t.id) (ht' : pred t' = true) :
    (l.map (fun x => if x.id == t'.id then t' else x)).filter pred = [t'] := by
  induction l with
  | nil => simp at hf
  | cons a l ih =>
    have hN1 : a.id ∉ l.map Trip.id := (List.nodup_cons.mp hN).1
    have hN2 : (l.map Trip.id).Nodup := (List.nodup_cons.mp hN).2
    by_cases hpa : pred a = true
    · rw [List.filter_cons_of_pos hpa] at hf
      have hat : a = t := by injection hf
      have hfl : l.filter pred = [] := by injection hf
      have hhead : (a.id == t'.id) = true := by
        rw [hid, ← hat]; exact beq_self_eq_true _
      have hmapid : l.map (fun x => if x.id == t'.id then t' else x) = l := by
        have hcong : ∀ x ∈ l, (if x.id == t'.id then t' else x) = x := by
          intro x hx
          have hxne : x.id ≠ t'.id := by
            rw [hid, ← hat]
            intro hcontra
            exact hN1 (by rw [← hcontra]; exact List.mem_map_of_mem Trip.id hx)
          simp [hxne]
        calc l.map (fun x => if x.id == t'.id then t' else x)
            = l.map id := List.map_congr_left (by simpa using hcong)
          _ = l := List.map_id l
      rw [List.map_cons, if_pos hhead, hmapid,
        List.filter_cons_of_pos ht', hfl]
    · rw [List.filter_cons_of_neg hpa] at hf
      have htmem : t ∈ l := by
        have : t ∈ l.filter pred := by rw [hf]; exact List.mem_singleton_self t
        exact (List.mem_filter.mp this).1
      have hane : ¬ (a.id == t'.id) = true := by
        rw [hid]
        simp only [beq_iff_eq]
        intro hcontra
        exact hN1 (hcontra ▸ List.mem_map_of_mem Trip.id htmem)
      rw [List.map_cons, if_neg hane, List.filter_cons_of_neg hpa]
      exact ih hN2 hf

/-- C4 amended: with exactly one existing planning trip (same user,
    case-insensitively same destination) whose start_date has no parseable
    month/year, a valid request whose start_date does parse updates that row
    in place and answers updated with its id: the dates, duration and budget
    are copied when non-null, travelers_count when different from the default
    1, a NON-EMPTY preferences list replaces the stored one, a NON-EMPTY
    country_code is merged only when the stored one is absent or empty, every
    other field is untouched, and exactly one row for that user+destination
    remains. -/
theorem c4_undated_to_dated_update_amended
    (a : PlanArgs) (today : PyDateTime) (s : TripStore) (t : Trip)
    (hwf : s.wf)
    (hmatch : matchingTrips s a.user_id (pyNorm a.destination) = [t])
    (hval : _validate_trip_input a.destination a.start_date a.end_date
      a.duration_days a.budget today = none)
    (hex : _extract_month_year t.start_date = none)
    (hnew : (_extract_month_year a.start_date).isSome = true) :
    (plan_and_save_trip a today s).1.status = "updated" ∧
    (plan_and_save_trip a today s).1.trip_id = some t.id ∧
    (∃ t', (plan_and_save_trip a today s).2.byId t.id = some t' ∧
      t'.id = t.id ∧ t'.user_id = t.user_id ∧
      t'.destination = t.destination ∧ t'.status = t.status ∧
      t'.start_date = a.start_date ∧
      t'.end_date = (if a.end_date.isSome then a.end_date else t.end_date) ∧
      t'.duration_days =
        (if a.duration_days.isSome then a.duration_days else t.duration_days) ∧
      t'.budget = (if a.budget.isSome then a.budget else t.budget) ∧
      t'.travelers_count =
        (if a.travelers_count != 1 then a.travelers_count else t.travelers_count) ∧
      t'.trip_metadata.preferences =
        (if truthyList a.preferences then a.preferences
         else t.trip_metadata.preferences) ∧
      t'.trip_metadata.country_code =
        (if truthyStr a.country_code && !truthyStr t.trip_metadata.country_code
         then a.country_code else t.trip_metadata.country_code) ∧
      t'.trip_metadata.source = t.trip_metadata.source ∧
      t'.trip_metadata.itinerary = t.trip_metadata.itinerary) ∧
    (matchingTrips (plan_and_save_trip a today s).2 a.user_id
      (pyNorm a.destination)).length = 1 := by
  have hplan : plan_and_save_trip a today s = updateExistingTrip a t s :=
    plan_branch_update_undated a today s t hval (by rw [hmatch]; rfl) hex hnew
  have htmem : t ∈ s.trips := by
    have : t ∈ matchingTrips s a.user_id (pyNorm a.destination) := by
      rw [hmatch]; exact List.mem_singleton_self t
    exact (List.mem_filter.mp this).1
  have hbyid0 : s.byId t.id = some t := byId_of_mem_nodup s t htmem hwf.1
  have hbyid : (updateExistingTrip a t s).2.byId t.id = some (updatedTripOf a t) :=
    byId_replaceById s t.id t (updatedTripOf a t) hbyid0 rfl
  have hsd : a.start_date.isSome = true := by
    cases h : a.start_date with
    | none => rw [h] at hnew; simp [_extract_month_year] at hnew
    | some sd => rfl
  have hpredt : (fun x => x.user_id == a.user_id && x.status == "planning" &&
      pyNorm x.destination == pyNorm a.destination) t = true := by
    have : t ∈ matchingTrips s a.user_id (pyNorm a.destination) := by
      rw [hmatch]; exact List.mem_singleton_self t
    exact (List.mem_filter.mp this).2
  refine ⟨by rw [hplan]; rfl, by rw [hplan]; rfl, ?_, ?_⟩
  · refine ⟨updatedTripOf a t, by rw [hplan]; exact hbyid,
      rfl, rfl, rfl, rfl, ?_, rfl, rfl, rfl, rfl, rfl, rfl, rfl, rfl⟩
    show (if a.start_date.isSome then a.start_date else t.start_date) = a.start_date
    rw [if_pos hsd]
  · rw [hplan]
    show (matchingTrips (s.replaceById (updatedTripOf a t))
      a.user_id (pyNorm a.destination)).length = 1
    have hrepl := filter_map_replace s.trips
      (fun x => x.user_id == a.user_id && x.status == "planning" &&
        pyNorm x.destination == pyNorm a.destination)
      t (updatedTripOf a t) hwf.1 hmatch rfl (by simpa using hpredt)
    show ((s.trips.map
      (fun x => if x.id == (updatedTripOf a t).id then updatedTripOf a t else x)).filter
        _).length = 1
    rw [hrepl]
    rfl

def c4wToday : PyDateTime := { year := 2026, month := 10, day := 12 }

def c4wTrip : Trip :=
  { id := 9, user_id := 3, destination := "Kyoto",
    trip_metadata := { preferences := some ["temples"], source := some "user_input" } }

def c4wStore : TripStore := { trips := [c4wTrip], nextId := 10 }

def c4wArgs : PlanArgs :=
  { destination := "kyoto", user_id := 3, start_date := some "2030-04-02",
    duration_days := some 6, budget := some 2500, travelers_count := 2,
    preferences := some ["food"], country_code := some "JPN" }

theorem c4_undated_to_dated_update_amended_witness :
    c4wStore.wf ∧
    matchingTrips c4wStore c4wArgs.user_id (pyNorm c4wArgs.destination) = [c4wTrip] ∧
    _extract_month_year c4wTrip.start_date = none ∧
    (_extract_month_year c4wArgs.start_date).isSome = true ∧
    (plan_and_save_trip c4wArgs c4wToday c4wStore).1.status = "updated" ∧
    (plan_and_save_trip c4wArgs c4wToday c4wStore).1.trip_id = some 9 ∧
    (∃ t', (plan_and_save_trip c4wArgs c4wToday c4wStore).2.byId 9 = some t' ∧
      t'.start_date = some "2030-04-02" ∧ t'.duration_days = some 6 ∧
      t'.budget = some 2500 ∧ t'.travelers_count = 2 ∧
      t'.trip_metadata.preferences = some ["food"] ∧
      t'.trip_metadata.country_code = some "JPN") ∧
    (matchingTrips (plan_and_save_trip c4wArgs c4wToday c4wStore).2
      c4wArgs.user_id (pyNorm c4wArgs.destination)).length = 1 := by
  have hwf : c4wStore.wf := by
    constructor
    · simp [c4wStore, c4wTrip]
    · intro t ht
      simp only [c4wStore, List.mem_singleton] at ht
      rw [ht]; decide
  have h := c4_undated_to_dated_update_amended c4wArgs c4wToday c4wStore c4wTrip
    hwf rfl rfl rfl rfl
  obtain ⟨t', ht', _, _, _, _, hstart, _, hdur, hbud, htrav, hpref, hcc, _, _⟩ := h.2.2.1
  exact ⟨hwf, rfl, rfl, rfl, h.1, h.2.1,
    ⟨t', ht', hstart, hdur, hbud, htrav, hpref, hcc⟩, h.2.2.2⟩

/- ═══════════════ Claim C9 ═══════════════ -/

/-- The time-of-day an activity sorts by: its "time" value (default "00:00"). -/
def actTimeKey (x : Json) : String :=
  match x with
  | .obj kvs =>
    match (jLookup kvs "time").getD (.str "00:00") with
    | .str s => s
    | _ => ""
  | _ => ""

/-- The scanned activity is a dict whose "time" (default "00:00") is a
    string, so the comparison a.get("time","00:00") > t cannot raise. -/
def activityTimeOk (x : Json) : Bool :=
  match x with
  | .obj kvs =>
    match (jLookup kvs "time").getD (.str "00:00") with
    | .str _ => true
    | _ => false
  | _ => false

theorem pyStrLtb_asymm : ∀ x y, pyStrLtb x y = true → pyStrLtb y x = false := by
  intro x
  induction x with
  | nil =>
    intro y h
    cases y with
    | nil => simp [pyStrLtb] at h
    | cons b bs => simp [pyStrLtb]
  | cons a as ih =>
    intro y h
    cases y with
    | nil => simp [pyStrLtb] at h
    | cons b bs =>
      simp only [pyStrLtb] at h ⊢
      by_cases h1 : a.toNat < b.toNat
      · have h2 : ¬ b.toNat < a.toNat := by omega
        simp [h1, h2]
      · by_cases h2 : b.toNat < a.toNat
        · simp [h1, h2] at h
        · simp only [if_neg h1, if_neg h2] at h ⊢
          exact ih bs h

theorem pyStrLtb_trans :
    ∀ x y z, pyStrLtb x y = true → pyStrLtb y z = true → pyStrLtb x z = true := by
  intro x
  induction x with
  | nil =>
    intro y z hxy hyz
    cases y with
    | nil => simp [pyStrLtb] at hxy
    | cons b bs =>
      cases z with
      | nil => simp [pyStrLtb] at hyz
      | cons c cs => simp [pyStrLtb]
  | cons a as ih =>
    intro y z hxy hyz
    cases y with
    | nil => simp [pyStrLtb] at hxy
    | cons b bs =>
      cases z with
      | nil => simp [pyStrLtb] at hyz
      | cons c cs =>
        simp only [pyStrLtb] at hxy hyz ⊢
        by_cases hab : a.toNat < b.toNat
        · by_cases hbc : b.toNat < c.toNat
          · have hac : a.toNat < c.toNat := by omega
            simp [hac]
          · by_cases hcb : c.toNat < b.toNat
            · simp [hbc, hcb] at hyz
            · have hac : a.toNat < c.toNat := by omega
              simp [hac]
        · by_cases hba : b.toNat < a.toNat
          · simp [hab, hba] at hxy
          · by_cases hbc : b.toNat < c.toNat
            · have hac : a.toNat < c.toNat := by omega
              simp [hac]
            · by_cases hcb : c.toNat < b.toNat
              · simp [hbc, hcb] at hyz
              · have h1 : ¬ a.toNat < c.toNat := by omega
                have h2 : ¬ c.toNat < a.toNat := by omega
                simp only [if_neg hab, if_neg hba] at hxy
                simp only [if_neg hbc, if_neg hcb] at hyz
                simp only [if_neg h1, if_neg h2]
                exact ih bs cs hxy hyz

theorem pyStrLt_asymm (a b : String) (h : pyStrLt a b = true) :
    pyStrLt b a = false :=
  pyStrLtb_asymm a.data b.data h

theorem pyStrLt_trans (a b c : String) (h1 : pyStrLt a b = true)
    (h2 : pyStrLt b c = true) : pyStrLt a c = true :=
  pyStrLtb_trans a.data b.data c.data h1 h2

theorem timeGt_eq (x : Json) (t : String) (h : activityTimeOk x = true) :
    timeGt x t = some (pyStrLt t (actTimeKey x)) := by
  cases x with
  | obj kvs =>
    rcases hv : jLookup kvs "time" with _ | v
    · simp [timeGt, actTimeKey, hv]
    · cases v with
      | str s => simp [timeGt, actTimeKey, hv]
      | null => exfalso; simp [activityTimeOk, hv] at h
      | bool b => exfalso; simp [activityTimeOk, hv] at h
      | num n => exfalso; simp [activityTimeOk, hv] at h
      | arr l => exfalso; simp [activityTimeOk, hv] at h
      | obj kvs2 => exfalso; simp [activityTimeOk, hv] at h
  | null => simp [activityTimeOk] at h
  | bool b => simp [activityTimeOk] at h
  | num n => simp [activityTimeOk] at h
  | str s => simp [activityTimeOk] at h
  | arr l => simp [activityTimeOk] at h

/-- Inserting at the index insertIdxScan finds keeps the activities ordered
    by time-of-day and permutes the original list plus the new element. -/
theorem insertIdxScan_sorted (t : String) (newA : Json)
    (hkey : actTimeKey newA = t) :
    ∀ acts : List Json, acts.all activityTimeOk = true →
    List.Pairwise (fun x y => pyStrLe (actTimeKey x) (actTimeKey y) = true) acts →
    ∃ i, insertIdxScan t acts = .ok i ∧
      List.Pairwise (fun x y => pyStrLe (actTimeKey x) (actTimeKey y) = true)
        (acts.take i ++ [newA] ++ acts.drop i) ∧
      (acts.take i ++ [newA] ++ acts.drop i).Perm (acts ++ [newA]) := by
  intro acts
  induction acts with
  | nil => exact fun _ _ => ⟨0, rfl, by simp, by simp⟩
  | cons x xs ih =>
    intro hall hsort
    have hx : activityTimeOk x = true :=
      List.all_eq_true.mp hall x (List.mem_cons_self x xs)
    have hxs : xs.all activityTimeOk = true :=
      List.all_eq_true.mpr (fun y hy =>
        List.all_eq_true.mp hall y (List.mem_cons_of_mem x hy))
    have hrels : ∀ y ∈ xs, pyStrLe (actTimeKey x) (actTimeKey y) = true :=
      (List.pairwise_cons.mp hsort).1
    have hsort' : List.Pairwise
        (fun x y => pyStrLe (actTimeKey x) (actTimeKey y) = true) xs :=
      (List.pairwise_cons.mp hsort).2
    have hsx := timeGt_eq x t hx
    by_cases hgt : pyStrLt t (actTimeKey x) = true
    · refine ⟨0, ?_, ?_, ?_⟩
      · simp only [insertIdxScan, hsx, hgt]
      · simp only [List.take_zero, List.drop_zero, List.nil_append,
          List.singleton_append]
        refine List.pairwise_cons.mpr ⟨?_, hsort⟩
        intro y hy
        rcases List.mem_cons.mp hy with rfl | hy'
        · rw [hkey]
          simp [pyStrLe, pyStrLt_asymm t (actTimeKey y) hgt]
        · rw [hkey]
          have hxy : pyStrLt (actTimeKey y) (actTimeKey x) = false := by
            have := hrels y hy'
            simpa [pyStrLe] using this
          cases hyt : pyStrLt (actTimeKey y) t with
          | false => simp [pyStrLe, hyt]
          | true =>
            have := pyStrLt_trans (actTimeKey y) t (actTimeKey x) hyt hgt
            rw [hxy] at this
            exact absurd this (by simp)
      · simp only [List.take_zero, List.drop_zero, List.nil_append,
          List.singleton_append]
        exact (List.perm_append_singleton newA (x :: xs)).symm
    · have hgtf : pyStrLt t (actTimeKey x) = false := by
        simpa using hgt
      obtain ⟨i, hscan, hpair, hperm⟩ := ih hxs hsort'
      refine ⟨i + 1, ?_, ?_, ?_⟩
      · simp only [insertIdxScan, hsx, hgtf]
        rw [hscan]
        rfl
      · simp only [List.take_succ_cons, List.drop_succ_cons, List.cons_append]
        refine List.pairwise_cons.mpr ⟨?_, hpair⟩
        intro y hy
        have hy' : y ∈ xs ++ [newA] := hperm.mem_iff.mp hy
        rcases List.mem_append.mp hy' with hy1 | hy2
        · exact hrels y hy1
        · have hynew : y = newA := by simpa using hy2
          rw [hynew, hkey]
          simp [pyStrLe, hgtf]
      · simp only [List.take_succ_cons, List.drop_succ_cons, List.cons_append]
        exact hperm.cons x

/-- C9: when the targeted day entry holds an activities list ordered
    ascending by time-of-day, add_activity inserts the new activity at the
    scan position and the stored list is still ordered ascending by
    time-of-day and is a permutation of the old activities plus the new one. -/
theorem c9_add_activity_preserves_order
    (s : TripStore) (tid : Nat) (trip : Trip) (a : ActivityCreate)
    (uuid now : String) (days : List Json) (idx : Nat) (d : Json)
    (acts : List Json)
    (hfind : s.byId tid = some trip)
    (hitin : trip.trip_metadata.itinerary = some (.arr days))
    (hday : findDayEntry a.day days = .ok (some (idx, d)))
    (hacts : jGetD d "activities" (.arr []) = .arr acts)
    (hall : acts.all activityTimeOk = true)
    (hsorted : List.Pairwise
      (fun x y => pyStrLe (actTimeKey x) (actTimeKey y) = true) acts) :
    ∃ t' newActs,
      (add_activity tid a uuid now s).1 = .ok (.ok t') ∧
      t'.trip_metadata.itinerary =
        some (.arr (days.set idx (setDayActivities d (.arr newActs)))) ∧
      List.Pairwise (fun x y => pyStrLe (actTimeKey x) (actTimeKey y) = true) newActs ∧
      newActs.Perm (acts ++ [newActivityJson a uuid]) := by
  obtain ⟨i, hscan, hpair, hperm⟩ :=
    insertIdxScan_sorted a.time (newActivityJson a uuid) rfl acts hall hsorted
  refine ⟨{ trip with
      trip_metadata := { trip.trip_metadata with
        itinerary := some (.arr (days.set idx (setDayActivities d
          (.arr (acts.take i ++ [newActivityJson a uuid] ++ acts.drop i))))) }
      updated_at := some now },
    acts.take i ++ [newActivityJson a uuid] ++ acts.drop i, ?_, rfl, hpair, hperm⟩
  simp [add_activity, hfind, hitin, pyList, hday, hacts, hscan, addActivityFinish]

def c9Acts : List Json :=
  [.obj [("id", .str "a1"), ("time", .str "09:00")],
   .obj [("id", .str "a2"), ("time", .str "12:00")],
   .obj [("id", .str "a3"), ("time", .str "18:00")]]

def c9Day : Json :=
  .obj [("day", .num 1), ("date", .str ""), ("title", .str "Day 1"),
    ("activities", .arr c9Acts)]

def c9Trip : Trip :=
  { id := 1, user_id := 1, destination := "Rome",
    trip_metadata := { itinerary := some (.arr [c9Day]) } }

def c9Store : TripStore := { trips := [c9Trip], nextId := 2 }

def c9Act : ActivityCreate := ⟨1, "10:30", "dining", "Lunch", none, none, none⟩

theorem c9_add_activity_preserves_order_witness :
    c9Store.byId 1 = some c9Trip ∧
    findDayEntry c9Act.day [c9Day] = .ok (some (0, c9Day)) ∧
    jGetD c9Day "activities" (.arr []) = .arr c9Acts ∧
    c9Acts.all activityTimeOk = true ∧
    List.Pairwise (fun x y => pyStrLe (actTimeKey x) (actTimeKey y) = true) c9Acts ∧
    ∃ t' newActs,
      (add_activity 1 c9Act "u1" "NOW" c9Store).1 = .ok (.ok t') ∧
      t'.trip_metadata.itinerary =
        some (.arr (([c9Day] : List Json).set 0 (setDayActivities c9Day (.arr newActs)))) ∧
      List.Pairwise (fun x y => pyStrLe (actTimeKey x) (actTimeKey y) = true) newActs ∧
      newActs.Perm (c9Acts ++ [newActivityJson c9Act "u1"]) := by
  have h := c9_add_activity_preserves_order c9Store 1 c9Trip c9Act "u1" "NOW"
    [c9Day] 0 c9Day c9Acts rfl rfl rfl rfl (by decide) (by decide)
  exact ⟨rfl, rfl, rfl, by decide, by decide, h⟩

end TripMind
